import Mathlib

/-!
# Task1AplusB: device selection, dispatch size, verification pass and driver sequence

A shallow embedding of `src/main.cpp`.  The compute API (OpenCL) is external to the
program: what it answers is an input of the model (`Topology`, `World`), and every call
the program makes is recorded in a trace together with the status the API returned, so
that statements of the form "this call failed, hence nothing later ran" can be made.
-/

namespace AplusB

/-! ## Constants of `CL/cl.h` used by `main.cpp` -/

/-- Modelled from the spec: `CL_SUCCESS` is declared in `CL/cl.h`, which the sources do not
contain; the success status of the compute API, zero in the Khronos header. -/
def CL_SUCCESS : Int := 0

/-- Modelled from the spec: `CL_DEVICE_TYPE_CPU` is declared in `CL/cl.h`, which the sources
do not contain; the CPU bit of a device-type bitfield, `1 << 1` in the Khronos header. -/
def CL_DEVICE_TYPE_CPU : Nat := 2

/-- Modelled from the spec: `CL_DEVICE_TYPE_GPU` is declared in `CL/cl.h`, which the sources
do not contain; the GPU bit of a device-type bitfield, `1 << 2` in the Khronos header. -/
def CL_DEVICE_TYPE_GPU : Nat := 4

/-- The null pointer, as the value of a handle (`cl_device_id` is a pointer type). -/
def nullptr : Nat := 0

/-- The value of `__FILE__` inside `main.cpp`: the path the compiler is given. -/
def FILE : String := "src/main.cpp"

/-! ## Exceptions, console output, trace -/

/-- The two kinds of `std::runtime_error` thrown by `main.cpp`: the one built by
`reportError` from a status code and a call site, and the ones with a fixed message. -/
inductive Exception where
  | openclError (err : Int) (filename : String) (line : Nat)
  | runtimeError (message : String)
  deriving DecidableEq, Repr

/-- The message of the exception, as `reportError` (line 30) assembles it. -/
def Exception.what : Exception → String
  | .openclError err filename line =>
    "OpenCL error code " ++ toString err ++ " encountered at " ++ filename ++ ":" ++ toString line
  | .runtimeError message => message

/-- The compute-API functions `main.cpp` calls. -/
inductive Api where
  | clGetPlatformIDs | clGetDeviceIDs | clGetDeviceInfo | clGetPlatformInfo
  | clBuildProgram | clGetProgramBuildInfo | clSetKernelArg
  | clEnqueueNDRangeKernel | clWaitForEvents | clReleaseEvent | clEnqueueReadBuffer
  deriving DecidableEq, Repr

/-- The device-resident objects `main` holds, named after its local variables. -/
inductive Resource where
  | ctx | queue | aGpu | bGpu | cGpu | program | kernel
  deriving DecidableEq, Repr

/-- What `main.cpp` writes to `std::cout`.  `α` is the element type of the three vectors
(`float` in the source); timing figures are floating-point values of the absent
`libutils/timer.h` and only their label is kept. -/
inductive Output (α : Type) where
  | text (s : String)
  | platformName (s : String)
  | deviceName (s : String)
  | dataGenerated (n : Nat)
  | buildLog (s : String)
  | stats (label : String)
  | mismatch (i : Nat) (c a b : α)
  deriving DecidableEq, Repr

/-- One observable action of the program: a compute-API call with the status it returned
(`call`; `create` and `release` when it acquires or releases one of the objects of
`Resource`; `dispatch` for `clEnqueueNDRangeKernel`, with the two sizes it is given), a
line on the console, or a lap of the timer. -/
inductive Event (α : Type) where
  | call (fn : Api) (line : Nat) (status : Int)
  | create (obj : Resource) (line : Nat) (status : Int)
  | release (obj : Resource) (line : Nat) (status : Int)
  | dispatch (global_work_size workGroupSize : Nat) (line : Nat) (status : Int)
  | print (o : Output α)
  | nextLap
  deriving DecidableEq, Repr

/-- A computation of the program: the actions performed so far and either the value
returned or the exception thrown. -/
structure Run (α : Type) (β : Type) where
  trace : List (Event α)
  result : Except Exception β

/-- Sequencing: an exception stops the computation, keeping the trace up to it. -/
def Run.bind {α β γ : Type} (m : Run α β) (f : β → Run α γ) : Run α γ :=
  match m.result with
  | .error e => ⟨m.trace, .error e⟩
  | .ok b => ⟨m.trace ++ (f b).trace, (f b).result⟩

instance (α : Type) : Monad (Run α) where
  pure b := ⟨[], .ok b⟩
  bind := Run.bind

/-- Performs one action. -/
def emit {α : Type} (e : Event α) : Run α Unit := ⟨[e], .ok ()⟩

/-- The statement `throw e`. -/
def raise {α β : Type} (e : Exception) : Run α β := ⟨[], .error e⟩

/-- A compute-API call at source line `line` to which the API answers `status`. -/
def apiCall {α : Type} (fn : Api) (line : Nat) (status : Int) : Run α Int :=
  ⟨[.call fn line status], .ok status⟩

/-! ## `reportError`, `OCL_SAFE_CALL` (lines 22-34) -/

/-- Lines 22-32: nothing on `CL_SUCCESS`, otherwise throws. -/
def reportError {α : Type} (err : Int) (filename : String) (line : Nat) : Run α Unit :=
  if CL_SUCCESS = err then pure ()
  else raise (.openclError err filename line)

/-- Line 34: `reportError(expr, __FILE__, __LINE__)`; `line` is the line of the use. -/
def OCL_SAFE_CALL {α : Type} (expr : Run α Int) (line : Nat) : Run α Unit := do
  let err ← expr
  reportError err FILE line

/-! ## Device selection (lines 36-85) -/

/-- A device as the API presents it: its handle (`cl_device_id`, a pointer), the bitfield
a `CL_DEVICE_TYPE` query writes, and the status such a query returns: `typeStatus k` is
the status of the `k`-th `CL_DEVICE_TYPE` query made on this device (counted from 0), so
that two queries on the same device may be answered differently. -/
structure Device where
  id : Nat
  devType : Nat
  typeStatus : Nat → Int

/-- A platform as the API presents it: the statuses of the two `clGetDeviceIDs` calls
(count, then handles) and the devices the second one lists. -/
structure Platform where
  countStatus : Int
  idsStatus : Int
  devices : List Device

/-- The device topology: the statuses of the two `clGetPlatformIDs` calls (count, then
handles) and the platforms the second one lists. -/
structure Topology where
  countStatus : Int
  idsStatus : Int
  platforms : List Platform

/-- Lines 36-41. The state of the API is passed explicitly: `k` is the number of
`CL_DEVICE_TYPE` queries made on this device before this one. -/
def getDevType (α : Type) (device : Device) (k : Nat) : Run α Nat := do
  OCL_SAFE_CALL (apiCall .clGetDeviceInfo 39 (device.typeStatus k)) 39
  return device.devType

/-- Lines 43-46; the conversion of the masked bitfield to `bool` is the test against zero.
`k` is passed on to `getDevType`. -/
def isGPU (α : Type) (device : Device) (k : Nat) : Run α Bool := do
  return decide ((← getDevType α device k) &&& CL_DEVICE_TYPE_GPU ≠ 0)

/-- Lines 48-51. `k` is passed on to `getDevType`. -/
def isCPU (α : Type) (device : Device) (k : Nat) : Run α Bool := do
  return decide ((← getDevType α device k) &&& CL_DEVICE_TYPE_CPU ≠ 0)

/-- How a loop of `getBestDevice` ends: with the `return device` of line 73, or by running
to its end with the current value of the variable `cpu`. -/
inductive Scan where
  | returned (device : Nat)
  | finished (cpu : Nat)
  deriving DecidableEq, Repr

/-- The inner loop, lines 70-77, over the devices not yet visited. On each device the
query of `isGPU` (line 72) is the first on that device and the query of `isCPU` (line 74)
the second. -/
def deviceLoop (α : Type) (cpu : Nat) : List Device → Run α Scan
  | [] => pure (.finished cpu)
  | device :: rest => do
    if (← isGPU α device 0) then
      return .returned device.id
    else if (← isCPU α device 1) then
      deviceLoop α device.id rest
    else
      deviceLoop α cpu rest

/-- The outer loop, lines 62-78, over the platforms not yet visited. -/
def platformLoop (α : Type) (cpu : Nat) : List Platform → Run α Scan
  | [] => pure (.finished cpu)
  | platform :: rest => do
    OCL_SAFE_CALL (apiCall .clGetDeviceIDs 66 platform.countStatus) 66
    OCL_SAFE_CALL (apiCall .clGetDeviceIDs 68 platform.idsStatus) 68
    match (← deviceLoop α cpu platform.devices) with
    | .returned device => return .returned device
    | .finished cpu => platformLoop α cpu rest

/-- Lines 53-85. -/
def getBestDevice (α : Type) (t : Topology) : Run α Nat := do
  let cpu := nullptr
  OCL_SAFE_CALL (apiCall .clGetPlatformIDs 58 t.countStatus) 58
  OCL_SAFE_CALL (apiCall .clGetPlatformIDs 60 t.idsStatus) 60
  match (← platformLoop α cpu t.platforms) with
  | .returned device => return device
  | .finished cpu =>
    if cpu = nullptr then
      raise (.runtimeError "No devices supporting OpenCL were found")
    else
      return cpu

/-! ## The driver, `main` and its helpers (lines 87-241) -/

/-- The operations on `float` that `main` uses: the literal `0`, `+` and `!=`.
Floating-point arithmetic itself is not modelled; the driver is parametric in it. -/
structure Arith (α : Type) where
  zero : α
  add : α → α → α
  ne : α → α → Bool

/-- What the environment answers during one run. `status line i` is the status the
compute-API call of source line `line` returns the `i`-th time that line is executed
(counted from 0: the iteration of the loop around it, or the number of earlier calls of
the function it stands in); `nextf k` is the `k`-th value of `r.nextf()` (`libutils/fast_random.h`
is not among the sources); `readback i j` is element `j` of what the `i`-th
`clEnqueueReadBuffer` stores into `cs` (the kernel `src/cl/aplusb.cl` runs on the device
and is not among the sources). -/
structure World (α : Type) where
  ocl_init : Bool
  topology : Topology
  status : Nat → Nat → Int
  platformId : Nat
  platformName : String
  deviceName : String
  nextf : Nat → α
  kernel_sources : String
  log_size : Nat
  log : String
  readback : Nat → Nat → α

/-- An object-creating call (`clCreateContext`, `clCreateBuffer`, ...): the status it
writes through its `errcode_ret` argument is returned. -/
def createCall {α : Type} (obj : Resource) (line : Nat) (status : Int) : Run α Int :=
  ⟨[.create obj line status], .ok status⟩

/-- A `clRelease...` call on one of the objects; `main` discards the status. -/
def releaseCall {α : Type} (obj : Resource) (line : Nat) (status : Int) : Run α Unit :=
  ⟨[.release obj line status], .ok ()⟩

/-- The call `clEnqueueNDRangeKernel` with the two sizes it is given. -/
def enqueueCall {α : Type} (global_work_size workGroupSize : Nat) (line : Nat)
    (status : Int) : Run α Int :=
  ⟨[.dispatch global_work_size workGroupSize line status], .ok status⟩

/-- Lines 87-92. The state of the API is passed explicitly: `k` is the number of earlier
calls of this function. -/
def getDevicePlatformId {α : Type} (w : World α) (_device : Nat) (k : Nat) : Run α Nat := do
  OCL_SAFE_CALL (apiCall .clGetDeviceInfo 90 (w.status 90 k)) 90
  return w.platformId

/-- Lines 94-108; its call of `getDevicePlatformId` is the first of the run. -/
def printDeviceInfo {α : Type} (w : World α) (device : Nat) : Run α Unit := do
  let _platform ← getDevicePlatformId w device 0
  OCL_SAFE_CALL (apiCall .clGetPlatformInfo 98 (w.status 98 0)) 98
  OCL_SAFE_CALL (apiCall .clGetPlatformInfo 100 (w.status 100 0)) 100
  emit (.print (.platformName w.platformName))
  OCL_SAFE_CALL (apiCall .clGetDeviceInfo 104 (w.status 104 0)) 104
  OCL_SAFE_CALL (apiCall .clGetDeviceInfo 106 (w.status 106 0)) 106
  emit (.print (.deviceName w.deviceName))

/-- Lines 110-119; its call of `getDevicePlatformId` is the second of the run. -/
def createDeviceContext {α : Type} (w : World α) (device : Nat) : Run α Resource := do
  let _platformId ← getDevicePlatformId w device 1
  let errcode_ret ← createCall .ctx 116 (w.status 116 0)
  OCL_SAFE_CALL (pure errcode_ret) 117
  return .ctx

/-- Line 196. -/
def workGroupSize : Nat := 128

/-- Line 197: `(n + workGroupSize - 1) / workGroupSize * workGroupSize`, every operation
in `size_t`, taken to be 64 bits wide; `n` is the `unsigned int` of line 138. -/
def global_work_size (n : Nat) : Nat :=
  ((n + workGroupSize) % 2 ^ 64 + 2 ^ 64 - 1) % 2 ^ 64 / workGroupSize * workGroupSize % 2 ^ 64

/-- Lines 200-206 from iteration `i` on, with `k` iterations left. -/
def kernelLoop {α : Type} (w : World α) (n : Nat) (i : Nat) : Nat → Run α Unit
  | 0 => pure ()
  | k + 1 => do
    OCL_SAFE_CALL (enqueueCall (global_work_size n) workGroupSize 202 (w.status 202 i)) 202
    let _ ← apiCall .clWaitForEvents 203 (w.status 203 i)
    let _ ← apiCall .clReleaseEvent 204 (w.status 204 i)
    emit .nextLap
    kernelLoop w n (i + 1) k

/-- Lines 217-220 from iteration `i` on, with `k` iterations left; returns the contents of
the host vector `cs`, which every read overwrites. -/
def readLoop {α : Type} (w : World α) (n : Nat) (cs : List α) (i : Nat) :
    Nat → Run α (List α)
  | 0 => pure cs
  | k + 1 => do
    OCL_SAFE_CALL (apiCall .clEnqueueReadBuffer 218 (w.status 218 i)) 218
    emit .nextLap
    readLoop w n ((List.range n).map (w.readback i)) (i + 1) k

/-- Lines 225-230 from index `i` on, with `k` iterations left. -/
def verifyLoop {α : Type} (A : Arith α) (as bs cs : List α) (i : Nat) : Nat → Run α Unit
  | 0 => pure ()
  | k + 1 => do
    if A.ne (cs.getD i A.zero) (A.add (as.getD i A.zero) (bs.getD i A.zero)) then
      emit (.print (.mismatch i (cs.getD i A.zero) (as.getD i A.zero) (bs.getD i A.zero)))
      raise (.runtimeError "CPU and GPU results differ!")
    verifyLoop A as bs cs (i + 1) k

/-- Lines 121-241. The element count `n` is the constant `100*1000*1000` of line 138 in
the source; it is a parameter here so that a run can be evaluated on short vectors. -/
def main {α : Type} (A : Arith α) (n : Nat) (w : World α) : Run α Int := do
  if !w.ocl_init then
    raise (.runtimeError "Can't init OpenCL driver!")
  let device ← getBestDevice α w.topology
  emit (.print (.text "Using device:"))
  printDeviceInfo w device
  let _ctx ← createDeviceContext w device
  let err ← createCall .queue 135 (w.status 135 0)
  OCL_SAFE_CALL (pure err) 136
  let as := (List.range n).map fun i => w.nextf (2 * i)
  let bs := (List.range n).map fun i => w.nextf (2 * i + 1)
  let cs := List.replicate n A.zero
  emit (.print (.dataGenerated n))
  let err ← createCall .aGpu 150 (w.status 150 0)
  OCL_SAFE_CALL (pure err) 151
  let err ← createCall .bGpu 152 (w.status 152 0)
  OCL_SAFE_CALL (pure err) 153
  let err ← createCall .cGpu 154 (w.status 154 0)
  OCL_SAFE_CALL (pure err) 155
  if w.kernel_sources.isEmpty then
    raise (.runtimeError
      "Empty source file! May be you forgot to configure working directory properly?")
  let err ← createCall .program 169 (w.status 169 0)
  OCL_SAFE_CALL (pure err) 170
  OCL_SAFE_CALL (apiCall .clBuildProgram 172 (w.status 172 0)) 172
  OCL_SAFE_CALL (apiCall .clGetProgramBuildInfo 175 (w.status 175 0)) 175
  OCL_SAFE_CALL (apiCall .clGetProgramBuildInfo 177 (w.status 177 0)) 177
  if w.log_size > 1 then
    emit (.print (.text "Log:"))
    emit (.print (.buildLog w.log))
  let err ← createCall .kernel 183 (w.status 183 0)
  OCL_SAFE_CALL (pure err) 184
  OCL_SAFE_CALL (apiCall .clSetKernelArg 188 (w.status 188 0)) 188
  OCL_SAFE_CALL (apiCall .clSetKernelArg 189 (w.status 189 0)) 189
  OCL_SAFE_CALL (apiCall .clSetKernelArg 190 (w.status 190 0)) 190
  OCL_SAFE_CALL (apiCall .clSetKernelArg 191 (w.status 191 0)) 191
  kernelLoop w n 0 20
  emit (.print (.stats "Kernel average time: "))
  emit (.print (.stats "GFlops: "))
  emit (.print (.stats "VRAM bandwidth: "))
  let cs ← readLoop w n cs 0 20
  emit (.print (.stats "Result data transfer time: "))
  emit (.print (.stats "VRAM -> RAM bandwidth: "))
  verifyLoop A as bs cs 0 n
  releaseCall .program 232 (w.status 232 0)
  releaseCall .queue 233 (w.status 233 0)
  releaseCall .kernel 234 (w.status 234 0)
  releaseCall .aGpu 235 (w.status 235 0)
  releaseCall .bGpu 236 (w.status 236 0)
  releaseCall .cGpu 237 (w.status 237 0)
  releaseCall .ctx 238 (w.status 238 0)
  return 0

/-! ## Vocabulary of the statements about device selection -/

/-- The devices of a topology in platform-then-device scan order. -/
def Topology.devices (t : Topology) : List Device :=
  (t.platforms.map Platform.devices).flatten

/-- The device has the GPU bit set. -/
def hasGPU (d : Device) : Prop := d.devType &&& CL_DEVICE_TYPE_GPU ≠ 0

/-- The device has the CPU bit set. -/
def hasCPU (d : Device) : Prop := d.devType &&& CL_DEVICE_TYPE_CPU ≠ 0

instance : DecidablePred hasGPU := fun _ => inferInstanceAs (Decidable (_ ≠ _))

instance : DecidablePred hasCPU := fun _ => inferInstanceAs (Decidable (_ ≠ _))

/-- Both device-type queries the code can make on the device (lines 72 and 74) succeed. -/
def Device.typeQueriesSucceed (d : Device) : Prop :=
  d.typeStatus 0 = CL_SUCCESS ∧ d.typeStatus 1 = CL_SUCCESS

instance (d : Device) : Decidable d.typeQueriesSucceed := by
  unfold Device.typeQueriesSucceed; infer_instance

/-- Every enumeration query and every device-type query of the topology succeeds. -/
def Topology.allSucceed (t : Topology) : Prop :=
  t.countStatus = CL_SUCCESS ∧ t.idsStatus = CL_SUCCESS ∧
  ∀ p ∈ t.platforms, p.countStatus = CL_SUCCESS ∧ p.idsStatus = CL_SUCCESS ∧
    ∀ d ∈ p.devices, d.typeQueriesSucceed

/-- Every device handle the enumeration lists is a valid one, that is, not null. -/
def Topology.validHandles (t : Topology) : Prop :=
  ∀ d ∈ t.devices, d.id ≠ nullptr

instance (t : Topology) : Decidable t.allSucceed := by
  unfold Topology.allSucceed; infer_instance

instance (t : Topology) : Decidable t.validHandles := by
  unfold Topology.validHandles; infer_instance

/-- A topology with two platforms: a CPU and an accelerator, then a CPU and two GPUs. -/
def mixedTopology : Topology :=
  ⟨0, 0, [⟨0, 0, [⟨11, 2, fun _ => 0⟩, ⟨12, 8, fun _ => 0⟩]⟩,
    ⟨0, 0, [⟨21, 2, fun _ => 0⟩, ⟨22, 4, fun _ => 0⟩, ⟨23, 4, fun _ => 0⟩]⟩]⟩

/-- A topology without GPU: a CPU and an accelerator, an empty platform, then two CPUs
with an accelerator between them. -/
def cpuTopology : Topology :=
  ⟨0, 0, [⟨0, 0, [⟨11, 2, fun _ => 0⟩, ⟨12, 8, fun _ => 0⟩]⟩, ⟨0, 0, []⟩,
    ⟨0, 0, [⟨31, 2, fun _ => 0⟩, ⟨32, 8, fun _ => 0⟩, ⟨33, 2, fun _ => 0⟩,
      ⟨34, 8, fun _ => 0⟩]⟩]⟩

/-- A topology whose devices are accelerators only, with an empty platform. -/
def accelTopology : Topology :=
  ⟨0, 0, [⟨0, 0, [⟨11, 8, fun _ => 0⟩]⟩, ⟨0, 0, []⟩,
    ⟨0, 0, [⟨31, 8, fun _ => 0⟩, ⟨32, 8, fun _ => 0⟩]⟩]⟩

/-- A topology in which a CPU is found first; on the next device the type query of
`isGPU` succeeds and the type query of `isCPU` then fails with status `-33`; a GPU
follows. -/
def failingTopology : Topology :=
  ⟨0, 0, [⟨0, 0, [⟨11, 2, fun _ => 0⟩, ⟨12, 2, fun k => if k = 1 then -33 else 0⟩,
    ⟨13, 4, fun _ => 0⟩]⟩]⟩

/-- The status and the line of the check of an action, when every compute-API call is
followed by a check on its own line (the case of `getBestDevice`). -/
def everyCall {α : Type} : Event α → Option (Int × Nat)
  | .call _ line status => some (status, line)
  | _ => none

/-- The status and the line of the check of an action in `main`: an object-creating call is
checked on the next line, a dispatch and any other call on its own line, except
`clWaitForEvents` and `clReleaseEvent` (lines 203, 204), which like the final releases are
not checked. -/
def checkedAt {α : Type} : Event α → Option (Int × Nat)
  | .call fn line status =>
    if fn = .clWaitForEvents ∨ fn = .clReleaseEvent then none else some (status, line)
  | .create _ line status => some (status, line + 1)
  | .dispatch _ _ line status => some (status, line)
  | _ => none

/-- Every check of the computation is fatal: an action recorded in its trace whose status,
as `chk` reads it, is not `CL_SUCCESS` is the last action of the trace, and the computation
ends with the exception `reportError` builds from that status and the line of the check. -/
def Checked {α β : Type} (chk : Event α → Option (Int × Nat)) (m : Run α β) : Prop :=
  ∀ pre post e s line, m.trace = pre ++ e :: post → chk e = some (s, line) →
    s ≠ CL_SUCCESS → post = [] ∧ m.result = .error (.openclError s FILE line)

/-- A reading of statuses that, on a call it considers checked, gives the status of the
call and its line. -/
def CallSound {α : Type} (chk : Event α → Option (Int × Nat)) : Prop :=
  ∀ fn line status r, chk (.call fn line status) = some r → r = (status, line)

/-- The exception of line 81. -/
def noDevices : Exception :=
  .runtimeError "No devices supporting OpenCL were found"

/-- What the two loops compute when no query fails: the pure content of lines 70-77. -/
def scan (cpu : Nat) : List Device → Scan
  | [] => .finished cpu
  | d :: ds =>
    if hasGPU d then .returned d.id
    else if hasCPU d then scan d.id ds
    else scan cpu ds

/-! ## Vocabulary of the statements about the driver -/

/-- The objects acquired along a trace, in order: the creating calls that succeeded. -/
def acquired {α : Type} : List (Event α) → List Resource
  | [] => []
  | .create obj _ status :: rest =>
    if status = CL_SUCCESS then obj :: acquired rest else acquired rest
  | _ :: rest => acquired rest

/-- The objects released along a trace, in order. -/
def released {α : Type} : List (Event α) → List Resource
  | [] => []
  | .release obj _ _ :: rest => obj :: released rest
  | _ :: rest => released rest

/-- The action writes the build log to the console (line 180). -/
def Event.isLog {α : Type} : Event α → Bool
  | .print (.buildLog _) => true
  | _ => false

/-- The action acquires or releases one of the objects of `Resource`, or writes the build
log. -/
def Event.isTracked {α : Type} : Event α → Bool
  | .create _ _ _ => true
  | .release _ _ _ => true
  | .print (.buildLog _) => true
  | _ => false

/-- The computation neither acquires nor releases an object, nor writes the build log. -/
def Quiet {α β : Type} (m : Run α β) : Prop :=
  ∀ e ∈ m.trace, e.isTracked = false

/-- The computation does not write the build log. -/
def NoLog {α β : Type} (m : Run α β) : Prop :=
  ∀ e ∈ m.trace, e.isLog = false

/-- The same run, except that the `i`-th `clWaitForEvents` (line 203) returns `s i`. -/
def World.withWaitStatus {α : Type} (w : World α) (s : Nat → Int) : World α :=
  { w with status := fun line i => if line = 203 then s i else w.status line i }

/-- When the computation returns, its trace and its value satisfy `Q`. -/
def OnSuccess {α β : Type} (m : Run α β) (Q : List (Event α) → β → Prop) : Prop :=
  ∀ b, m.result = .ok b → Q m.trace b

/-- The test of line 226 at index `i`: `cs[i] != as[i] + bs[i]`. -/
def differs {α : Type} (A : Arith α) (as bs cs : List α) (i : Nat) : Bool :=
  A.ne (cs.getD i A.zero) (A.add (as.getD i A.zero) (bs.getD i A.zero))

/-- What the verification pass does on a mismatch at index `i`: the one line of line 227
on the console, then the exception of line 228. -/
def rejection {α : Type} (A : Arith α) (as bs cs : List α) (i : Nat) : Run α Unit :=
  ⟨[.print (.mismatch i (cs.getD i A.zero) (as.getD i A.zero) (bs.getD i A.zero))],
    .error (.runtimeError "CPU and GPU results differ!")⟩

/-- Integer arithmetic as an instance of the operations of the driver; small integers
are floats whose sums are exact. -/
def intArith : Arith Int := ⟨0, fun a b => a + b, fun a b => a != b⟩

/-- A run on eight elements in which every call succeeds, the device is the GPU of
`mixedTopology`, `as` is `1..8`, `bs` is `8..1` and every readback gives `9` everywhere. -/
def goodWorld : World Int where
  ocl_init := true
  topology := mixedTopology
  status := fun _ _ => 0
  platformId := 2
  platformName := "Platform"
  deviceName := "Device"
  nextf := fun k => if k % 2 = 0 then k / 2 + 1 else 8 - k / 2
  kernel_sources := "__kernel void aplusb();"
  log_size := 1
  log := ""
  readback := fun _ _ => 9

/-- The run of `goodWorld`, except that `clBuildProgram` (line 172) returns `-11`
(`CL_BUILD_PROGRAM_FAILURE`) and the device holds a build log. -/
def buildFailWorld : World Int where
  ocl_init := true
  topology := mixedTopology
  status := fun line _ => if line = 172 then -11 else 0
  platformId := 2
  platformName := "Platform"
  deviceName := "Device"
  nextf := fun k => if k % 2 = 0 then k / 2 + 1 else 8 - k / 2
  kernel_sources := "__kernel void aplusb( int"
  log_size := 26
  log := "error: expected parameter"
  readback := fun _ _ => 9

/-- The run of `goodWorld`, except that the first `clWaitForEvents` (line 203, iteration
0) returns `-14` (`CL_EXEC_STATUS_ERROR_FOR_EVENTS_IN_WAIT_LIST`). -/
def waitFailWorld : World Int where
  ocl_init := true
  topology := mixedTopology
  status := fun line i => if line = 203 then (if i = 0 then -14 else 0) else 0
  platformId := 2
  platformName := "Platform"
  deviceName := "Device"
  nextf := fun k => if k % 2 = 0 then k / 2 + 1 else 8 - k / 2
  kernel_sources := "__kernel void aplusb();"
  log_size := 1
  log := ""
  readback := fun _ _ => 9

/-! ## Laws of `Run` -/

section RunLaws

variable {α β γ : Type}

theorem bind_eq (m : Run α β) (f : β → Run α γ) : (m >>= f) = Run.bind m f := rfl

theorem pure_eq (b : β) : (pure b : Run α β) = ⟨[], .ok b⟩ := rfl

theorem bind_of_ok {m : Run α β} {b : β} (f : β → Run α γ) (h : m.result = .ok b) :
    (m >>= f) = ⟨m.trace ++ (f b).trace, (f b).result⟩ := by
  simp [bind_eq, Run.bind, h]

theorem bind_of_error {m : Run α β} {e : Exception} (f : β → Run α γ)
    (h : m.result = .error e) : (m >>= f) = ⟨m.trace, .error e⟩ := by
  simp [bind_eq, Run.bind, h]

theorem result_bind (m : Run α β) (f : β → Run α γ) :
    (m >>= f).result =
      match m.result with
      | .ok b => (f b).result
      | .error e => .error e := by
  cases hres : m.result with
  | error e => rw [bind_of_error f hres]
  | ok b => rw [bind_of_ok f hres]

theorem OCL_SAFE_CALL_apiCall (fn : Api) (line : Nat) (status : Int) :
    (OCL_SAFE_CALL (apiCall fn line status) line : Run α Unit) =
      ⟨[.call fn line status],
        if CL_SUCCESS = status then .ok () else .error (.openclError status FILE line)⟩ := by
  unfold OCL_SAFE_CALL apiCall reportError
  by_cases h : CL_SUCCESS = status <;> simp [bind_eq, Run.bind, h, pure_eq, raise]

end RunLaws

/-! ## Device selection when no query fails -/

section Selection

variable {α : Type}

theorem getDevType_eq (d : Device) (k : Nat) :
    getDevType α d k = ⟨[.call .clGetDeviceInfo 39 (d.typeStatus k)],
      if CL_SUCCESS = d.typeStatus k then .ok d.devType
      else .error (.openclError (d.typeStatus k) FILE 39)⟩ := by
  unfold getDevType
  rw [OCL_SAFE_CALL_apiCall]
  by_cases h : CL_SUCCESS = d.typeStatus k <;> simp [bind_eq, Run.bind, h, pure_eq]

theorem isGPU_eq (d : Device) (k : Nat) :
    isGPU α d k = ⟨[.call .clGetDeviceInfo 39 (d.typeStatus k)],
      if CL_SUCCESS = d.typeStatus k then .ok (decide (hasGPU d))
      else .error (.openclError (d.typeStatus k) FILE 39)⟩ := by
  unfold isGPU
  rw [getDevType_eq]
  by_cases h : CL_SUCCESS = d.typeStatus k <;> simp [bind_eq, Run.bind, h, pure_eq, hasGPU]

theorem isCPU_eq (d : Device) (k : Nat) :
    isCPU α d k = ⟨[.call .clGetDeviceInfo 39 (d.typeStatus k)],
      if CL_SUCCESS = d.typeStatus k then .ok (decide (hasCPU d))
      else .error (.openclError (d.typeStatus k) FILE 39)⟩ := by
  unfold isCPU
  rw [getDevType_eq]
  by_cases h : CL_SUCCESS = d.typeStatus k <;> simp [bind_eq, Run.bind, h, pure_eq, hasCPU]

theorem deviceLoop_result (cpu : Nat) (ds : List Device)
    (h : ∀ d ∈ ds, d.typeQueriesSucceed) :
    (deviceLoop α cpu ds).result = .ok (scan cpu ds) := by
  induction ds generalizing cpu with
  | nil => rfl
  | cons d ds ih =>
    obtain ⟨h0, h1⟩ := h d (List.mem_cons_self _ _)
    have hds : ∀ x ∈ ds, x.typeQueriesSucceed := fun x hx => h x (List.mem_cons_of_mem _ hx)
    unfold deviceLoop
    rw [isGPU_eq, isCPU_eq, h0, h1]
    by_cases hg : hasGPU d
    · simp [bind_eq, Run.bind, hg, scan, pure_eq]
    · by_cases hc : hasCPU d
      · simp [bind_eq, Run.bind, hg, hc, scan, ih _ hds]
      · simp [bind_eq, Run.bind, hg, hc, scan, ih _ hds]

theorem scan_append (cpu : Nat) (xs ys : List Device) :
    scan cpu (xs ++ ys) =
      match scan cpu xs with
      | .returned device => .returned device
      | .finished c => scan c ys := by
  induction xs generalizing cpu with
  | nil => rfl
  | cons d xs ih =>
    by_cases hg : hasGPU d
    · simp [scan, hg]
    · by_cases hc : hasCPU d <;> simp [scan, hg, hc, ih]

theorem platformLoop_result (cpu : Nat) (ps : List Platform)
    (h : ∀ p ∈ ps, p.countStatus = CL_SUCCESS ∧ p.idsStatus = CL_SUCCESS ∧
      ∀ d ∈ p.devices, d.typeQueriesSucceed) :
    (platformLoop α cpu ps).result = .ok (scan cpu (ps.map Platform.devices).flatten) := by
  induction ps generalizing cpu with
  | nil => rfl
  | cons p ps ih =>
    obtain ⟨h1, h2, h3⟩ := h p (List.mem_cons_self _ _)
    have hps := fun q hq => h q (List.mem_cons_of_mem _ hq)
    have hdev := deviceLoop_result (α := α) cpu p.devices h3
    unfold platformLoop
    rw [OCL_SAFE_CALL_apiCall, OCL_SAFE_CALL_apiCall, h1, h2]
    simp only [List.map_cons, List.flatten_cons, scan_append]
    cases hs : scan cpu p.devices with
    | returned device =>
      rw [hs] at hdev
      simp [bind_eq, Run.bind, hdev, pure_eq]
    | finished c =>
      rw [hs] at hdev
      simp [bind_eq, Run.bind, hdev, ih c hps]

theorem getBestDevice_result (t : Topology) (h : t.allSucceed) :
    (getBestDevice α t).result =
      match scan nullptr t.devices with
      | .returned device => .ok device
      | .finished cpu => if cpu = nullptr then .error noDevices else .ok cpu := by
  obtain ⟨h1, h2, h3⟩ := h
  have hloop := platformLoop_result (α := α) nullptr t.platforms h3
  unfold getBestDevice
  rw [OCL_SAFE_CALL_apiCall, OCL_SAFE_CALL_apiCall, h1, h2]
  unfold Topology.devices
  cases hs : scan nullptr (t.platforms.map Platform.devices).flatten with
  | returned device =>
    rw [hs] at hloop
    simp [bind_eq, Run.bind, hloop, pure_eq]
  | finished c =>
    rw [hs] at hloop
    by_cases hc : c = nullptr <;>
      simp [bind_eq, Run.bind, hloop, pure_eq, hc, raise, noDevices]

theorem scan_first_gpu (cpu : Nat) (pre : List Device) (d : Device) (post : List Device)
    (hpre : ∀ x ∈ pre, ¬hasGPU x) (hd : hasGPU d) :
    scan cpu (pre ++ d :: post) = .returned d.id := by
  induction pre generalizing cpu with
  | nil => simp [scan, hd]
  | cons x pre ih =>
    have hx : ¬hasGPU x := hpre x (List.mem_cons_self _ _)
    have hrest : ∀ y ∈ pre, ¬hasGPU y := fun y hy => hpre y (List.mem_cons_of_mem _ hy)
    by_cases hc : hasCPU x <;> simp [scan, hx, hc, ih _ hrest]

theorem scan_none (cpu : Nat) (ds : List Device)
    (h : ∀ x ∈ ds, ¬hasGPU x ∧ ¬hasCPU x) : scan cpu ds = .finished cpu := by
  induction ds with
  | nil => rfl
  | cons x ds ih =>
    obtain ⟨hg, hc⟩ := h x (List.mem_cons_self _ _)
    simp [scan, hg, hc, ih fun y hy => h y (List.mem_cons_of_mem _ hy)]

theorem scan_last_cpu (cpu : Nat) (pre : List Device) (d : Device) (post : List Device)
    (hgpu : ∀ x ∈ pre ++ d :: post, ¬hasGPU x) (hd : hasCPU d)
    (hpost : ∀ x ∈ post, ¬hasCPU x) :
    scan cpu (pre ++ d :: post) = .finished d.id := by
  induction pre generalizing cpu with
  | nil =>
    have hg : ¬hasGPU d := hgpu d (by simp)
    have htail : ∀ x ∈ post, ¬hasGPU x ∧ ¬hasCPU x :=
      fun x hx => ⟨hgpu x (by simp [hx]), hpost x hx⟩
    simp [scan, hg, hd, scan_none _ _ htail]
  | cons x pre ih =>
    have hx : ¬hasGPU x := hgpu x (by simp)
    have hrest : ∀ y ∈ pre ++ d :: post, ¬hasGPU y :=
      fun y hy => hgpu y (by simp only [List.cons_append, List.mem_cons]; exact Or.inr hy)
    by_cases hc : hasCPU x <;> simp [scan, hx, hc, ih _ hrest]

theorem exists_first {β : Type} (P : β → Prop) (l : List β) (h : ∃ x ∈ l, P x) :
    ∃ pre d post, l = pre ++ d :: post ∧ (∀ x ∈ pre, ¬P x) ∧ P d := by
  induction l with
  | nil => simp at h
  | cons a l ih =>
    by_cases ha : P a
    · exact ⟨[], a, l, rfl, by simp, ha⟩
    · obtain ⟨x, hx, hPx⟩ := h
      rcases List.mem_cons.mp hx with rfl | hx
      · exact absurd hPx ha
      · obtain ⟨pre, d, post, hl, hpre, hd⟩ := ih ⟨x, hx, hPx⟩
        refine ⟨a :: pre, d, post, by simp [hl], ?_, hd⟩
        intro y hy
        rcases List.mem_cons.mp hy with rfl | hy
        · exact ha
        · exact hpre y hy

theorem exists_last {β : Type} (P : β → Prop) (l : List β) (h : ∃ x ∈ l, P x) :
    ∃ pre d post, l = pre ++ d :: post ∧ P d ∧ ∀ x ∈ post, ¬P x := by
  induction l with
  | nil => simp at h
  | cons a l ih =>
    by_cases hl : ∃ x ∈ l, P x
    · obtain ⟨pre, d, post, hl, hd, hpost⟩ := ih hl
      exact ⟨a :: pre, d, post, by simp [hl], hd, hpost⟩
    · obtain ⟨x, hx, hPx⟩ := h
      rcases List.mem_cons.mp hx with rfl | hx
      · refine ⟨[], x, l, rfl, hPx, ?_⟩
        intro y hy hPy
        exact hl ⟨y, hy, hPy⟩
      · exact absurd ⟨x, hx, hPx⟩ hl

end Selection

/-! ## Every status check of the selection is fatal -/

section Fatal

variable {α β γ : Type}

theorem Checked_of_trace_nil {chk : Event α → Option (Int × Nat)} {m : Run α β}
    (h : m.trace = []) : Checked chk m := by
  intro pre post e s line htrace
  rw [h] at htrace
  simp at htrace

theorem Checked_pure (chk : Event α → Option (Int × Nat)) (b : β) :
    Checked chk (pure b : Run α β) :=
  Checked_of_trace_nil rfl

theorem Checked_raise (chk : Event α → Option (Int × Nat)) (e : Exception) :
    Checked chk (raise e : Run α β) :=
  Checked_of_trace_nil rfl

theorem Checked_of_unchecked {chk : Event α → Option (Int × Nat)} {m : Run α β}
    (e : Event α) (h : m.trace = [e]) (he : chk e = none) : Checked chk m := by
  intro pre post x s line htrace hx
  rw [h] at htrace
  cases pre with
  | nil =>
    simp only [List.nil_append, List.cons.injEq] at htrace
    rw [← htrace.1, he] at hx
    cases hx
  | cons y pre => simp at htrace

theorem Checked_safe_call {chk : Event α → Option (Int × Nat)} (hcall : CallSound chk)
    (fn : Api) (line : Nat) (status : Int) :
    Checked chk (OCL_SAFE_CALL (apiCall fn line status) line : Run α Unit) := by
  intro pre post e s line1 htrace he hs
  rw [OCL_SAFE_CALL_apiCall] at htrace ⊢
  cases pre with
  | nil =>
    simp only [List.nil_append, List.cons.injEq] at htrace
    obtain ⟨rfl, hpost⟩ := htrace
    have hr := hcall fn line status (s, line1) he
    simp only [Prod.mk.injEq] at hr
    obtain ⟨rfl, rfl⟩ := hr
    refine ⟨hpost.symm, ?_⟩
    have : ¬CL_SUCCESS = s := fun h => hs h.symm
    simp [this]
  | cons x pre => simp at htrace

theorem Checked_bind {chk : Event α → Option (Int × Nat)} {m : Run α β} {f : β → Run α γ}
    (hm : Checked chk m) (hf : ∀ b, Checked chk (f b)) : Checked chk (m >>= f) := by
  intro pre post e s line htrace he hs
  cases hres : m.result with
  | error x =>
    rw [bind_of_error f hres] at htrace ⊢
    obtain ⟨hpost, herr⟩ := hm pre post e s line htrace he hs
    rw [hres] at herr
    cases herr
    exact ⟨hpost, rfl⟩
  | ok b =>
    rw [bind_of_ok f hres] at htrace ⊢
    simp only at htrace
    rcases List.append_eq_append_iff.mp htrace with ⟨as, hpre, hfb⟩ | ⟨cs, hmt, hrest⟩
    · exact hf b as post e s line hfb he hs
    · cases cs with
      | nil =>
        simp only [List.nil_append] at hrest
        exact hf b [] post e s line (by simpa using hrest.symm) he hs
      | cons c cs =>
        simp only [List.cons_append, List.cons.injEq] at hrest
        obtain ⟨hce, _⟩ := hrest
        obtain ⟨_, herr⟩ := hm pre cs c s line hmt (by rw [← hce]; exact he) hs
        rw [hres] at herr
        cases herr

theorem Checked_ite {chk : Event α → Option (Int × Nat)} {c : Prop} [Decidable c]
    {m1 m2 : Run α β} (h1 : Checked chk m1) (h2 : Checked chk m2) :
    Checked chk (if c then m1 else m2) := by
  by_cases hc : c
  · simp only [hc, if_true]; exact h1
  · simp only [hc, if_false]; exact h2

theorem Checked_getDevType {chk : Event α → Option (Int × Nat)} (hcall : CallSound chk)
    (d : Device) (k : Nat) : Checked chk (getDevType α d k) := by
  unfold getDevType
  exact Checked_bind (Checked_safe_call hcall _ _ _) fun _ => Checked_pure _ _

theorem Checked_isGPU {chk : Event α → Option (Int × Nat)} (hcall : CallSound chk)
    (d : Device) (k : Nat) : Checked chk (isGPU α d k) := by
  unfold isGPU
  exact Checked_bind (Checked_getDevType hcall d k) fun _ => Checked_pure _ _

theorem Checked_isCPU {chk : Event α → Option (Int × Nat)} (hcall : CallSound chk)
    (d : Device) (k : Nat) : Checked chk (isCPU α d k) := by
  unfold isCPU
  exact Checked_bind (Checked_getDevType hcall d k) fun _ => Checked_pure _ _

theorem Checked_deviceLoop {chk : Event α → Option (Int × Nat)} (hcall : CallSound chk)
    (cpu : Nat) (ds : List Device) : Checked chk (deviceLoop α cpu ds) := by
  induction ds generalizing cpu with
  | nil => exact Checked_pure _ _
  | cons d ds ih =>
    unfold deviceLoop
    refine Checked_bind (Checked_isGPU hcall d 0) fun g => ?_
    cases g with
    | true => exact Checked_pure _ _
    | false =>
      refine Checked_bind (Checked_isCPU hcall d 1) fun c => ?_
      cases c with
      | true => exact ih _
      | false => exact ih _

theorem Checked_platformLoop {chk : Event α → Option (Int × Nat)} (hcall : CallSound chk)
    (cpu : Nat) (ps : List Platform) : Checked chk (platformLoop α cpu ps) := by
  induction ps generalizing cpu with
  | nil => exact Checked_pure _ _
  | cons p ps ih =>
    unfold platformLoop
    refine Checked_bind (Checked_safe_call hcall _ _ _) fun _ => ?_
    refine Checked_bind (Checked_safe_call hcall _ _ _) fun _ => ?_
    refine Checked_bind (Checked_deviceLoop hcall cpu p.devices) fun r => ?_
    cases r with
    | returned device => exact Checked_pure _ _
    | finished c => exact ih c

theorem Checked_getBestDevice {chk : Event α → Option (Int × Nat)} (hcall : CallSound chk)
    (t : Topology) : Checked chk (getBestDevice α t) := by
  unfold getBestDevice
  refine Checked_bind (Checked_safe_call hcall _ _ _) fun _ => ?_
  refine Checked_bind (Checked_safe_call hcall _ _ _) fun _ => ?_
  refine Checked_bind (Checked_platformLoop hcall nullptr t.platforms) fun r => ?_
  cases r with
  | returned device => exact Checked_pure _ _
  | finished c => exact Checked_ite (Checked_raise _ _) (Checked_pure _ _)

theorem CallSound_everyCall : CallSound (everyCall : Event α → Option (Int × Nat)) := by
  intro fn line status r h
  simp only [everyCall, Option.some.injEq] at h
  exact h.symm

theorem CallSound_checkedAt : CallSound (checkedAt : Event α → Option (Int × Nat)) := by
  intro fn line status r h
  by_cases hf : fn = .clWaitForEvents ∨ fn = .clReleaseEvent
  · simp [checkedAt, hf] at h
  · simp only [checkedAt, hf, if_false, Option.some.injEq] at h
    exact h.symm

/-! ## Without a GPU in the topology, a failing query is always reached -/

theorem deviceLoop_fails (cpu : Nat) (ds : List Device) (hnogpu : ∀ d ∈ ds, ¬hasGPU d) :
    (∀ d ∈ ds, d.typeQueriesSucceed) ∨
    ∃ s, s ≠ CL_SUCCESS ∧
      (deviceLoop α cpu ds).result = .error (.openclError s FILE 39) := by
  induction ds generalizing cpu with
  | nil => exact Or.inl (by simp)
  | cons d ds ih =>
    have hg : ¬hasGPU d := hnogpu d (List.mem_cons_self _ _)
    have hrest : ∀ x ∈ ds, ¬hasGPU x := fun x hx => hnogpu x (List.mem_cons_of_mem _ hx)
    by_cases h0 : d.typeStatus 0 = CL_SUCCESS
    · by_cases h1 : d.typeStatus 1 = CL_SUCCESS
      · have hstep : ∀ c, (deviceLoop α c (d :: ds)).result =
            (deviceLoop α (if hasCPU d then d.id else c) ds).result := by
          intro c
          rw [deviceLoop]
          simp only [result_bind, isGPU_eq, isCPU_eq, h0, h1, if_true, hg, decide_False]
          by_cases hc : hasCPU d <;> simp [hc, result_bind]
        rcases ih (if hasCPU d then d.id else cpu) hrest with hall | ⟨s, hs, hres⟩
        · left
          intro y hy
          rcases List.mem_cons.mp hy with rfl | hy
          · exact ⟨h0, h1⟩
          · exact hall y hy
        · exact Or.inr ⟨s, hs, by rw [hstep, hres]⟩
      · right
        refine ⟨d.typeStatus 1, h1, ?_⟩
        have hne : ¬CL_SUCCESS = d.typeStatus 1 := fun h => h1 h.symm
        rw [deviceLoop]
        simp [result_bind, isGPU_eq, isCPU_eq, h0, hg, hne]
    · right
      refine ⟨d.typeStatus 0, h0, ?_⟩
      have hne : ¬CL_SUCCESS = d.typeStatus 0 := fun h => h0 h.symm
      rw [deviceLoop]
      simp [result_bind, isGPU_eq, hne]

theorem deviceLoop_ok_of_succeed (cpu : Nat) (ds : List Device)
    (h : ∀ d ∈ ds, d.typeQueriesSucceed) (hnogpu : ∀ d ∈ ds, ¬hasGPU d) :
    ∃ c, (deviceLoop α cpu ds).result = .ok (.finished c) := by
  rw [deviceLoop_result cpu ds h]
  induction ds generalizing cpu with
  | nil => exact ⟨cpu, rfl⟩
  | cons d ds ih =>
    have hg : ¬hasGPU d := hnogpu d (List.mem_cons_self _ _)
    have h1 := fun x hx => h x (List.mem_cons_of_mem _ hx)
    have h2 := fun x hx => hnogpu x (List.mem_cons_of_mem _ hx)
    by_cases hc : hasCPU d
    · simpa [scan, hg, hc] using ih d.id h1 h2
    · simpa [scan, hg, hc] using ih cpu h1 h2

theorem platformLoop_fails (cpu : Nat) (ps : List Platform)
    (hnogpu : ∀ p ∈ ps, ∀ d ∈ p.devices, ¬hasGPU d) :
    (∀ p ∈ ps, p.countStatus = CL_SUCCESS ∧ p.idsStatus = CL_SUCCESS ∧
      ∀ d ∈ p.devices, d.typeQueriesSucceed) ∨
    ∃ s line, s ≠ CL_SUCCESS ∧
      (platformLoop α cpu ps).result = .error (.openclError s FILE line) := by
  induction ps generalizing cpu with
  | nil => exact Or.inl (by simp)
  | cons p ps ih =>
    have hp := hnogpu p (List.mem_cons_self _ _)
    have hrest := fun q hq => hnogpu q (List.mem_cons_of_mem _ hq)
    by_cases h1 : p.countStatus = CL_SUCCESS
    · by_cases h2 : p.idsStatus = CL_SUCCESS
      · rcases deviceLoop_fails (α := α) cpu p.devices hp with hall | ⟨sd, hds, hres⟩
        · obtain ⟨c, hc⟩ := deviceLoop_ok_of_succeed (α := α) cpu p.devices hall hp
          have hstep : (platformLoop α cpu (p :: ps)).result = (platformLoop α c ps).result := by
            rw [platformLoop]
            simp [result_bind, OCL_SAFE_CALL_apiCall, h1, h2, hc]
          rcases ih c hrest with hok | ⟨s, line, hs, hres⟩
          · left
            intro q hq
            rcases List.mem_cons.mp hq with rfl | hq
            · exact ⟨h1, h2, hall⟩
            · exact hok q hq
          · exact Or.inr ⟨s, line, hs, by rw [hstep, hres]⟩
        · right
          refine ⟨sd, 39, hds, ?_⟩
          rw [platformLoop]
          simp [result_bind, OCL_SAFE_CALL_apiCall, h1, h2, hres]
      · right
        refine ⟨p.idsStatus, 68, h2, ?_⟩
        have hne : ¬CL_SUCCESS = p.idsStatus := fun h => h2 h.symm
        rw [platformLoop]
        simp [result_bind, OCL_SAFE_CALL_apiCall, h1, hne]
    · right
      refine ⟨p.countStatus, 66, h1, ?_⟩
      have hne : ¬CL_SUCCESS = p.countStatus := fun h => h1 h.symm
      rw [platformLoop]
      simp [result_bind, OCL_SAFE_CALL_apiCall, hne]

/-- In a topology without GPU, where the scan cannot stop early, any failing query makes
`getBestDevice` throw an external-API error: a CPU found before is never returned. -/
theorem getBestDevice_no_fallback (t : Topology) (hnogpu : ∀ d ∈ t.devices, ¬hasGPU d)
    (hfail : ¬t.allSucceed) :
    ∃ s line, s ≠ CL_SUCCESS ∧
      (getBestDevice α t).result = .error (.openclError s FILE line) := by
  have hno : ∀ p ∈ t.platforms, ∀ d ∈ p.devices, ¬hasGPU d := by
    intro p hp d hd
    refine hnogpu d ?_
    unfold Topology.devices
    exact List.mem_flatten.mpr ⟨p.devices, List.mem_map.mpr ⟨p, hp, rfl⟩, hd⟩
  by_cases h1 : t.countStatus = CL_SUCCESS
  · by_cases h2 : t.idsStatus = CL_SUCCESS
    · rcases platformLoop_fails (α := α) nullptr t.platforms hno with hall | ⟨s, line, hs, hres⟩
      · exact absurd ⟨h1, h2, hall⟩ hfail
      · refine ⟨s, line, hs, ?_⟩
        rw [getBestDevice]
        simp [result_bind, OCL_SAFE_CALL_apiCall, h1, h2, hres]
    · have hne : ¬CL_SUCCESS = t.idsStatus := fun h => h2 h.symm
      refine ⟨t.idsStatus, 60, h2, ?_⟩
      rw [getBestDevice]
      simp [result_bind, OCL_SAFE_CALL_apiCall, h1, hne]
  · have hne : ¬CL_SUCCESS = t.countStatus := fun h => h1 h.symm
    refine ⟨t.countStatus, 58, h1, ?_⟩
    rw [getBestDevice]
    simp [result_bind, OCL_SAFE_CALL_apiCall, hne]

end Fatal

/-! ## Claims about device selection -/

theorem first_gpu_selected (α : Type) (t : Topology) (hok : t.allSucceed)
    (hgpu : ∃ d ∈ t.devices, hasGPU d) :
    ∃ pre d post, t.devices = pre ++ d :: post ∧ (∀ x ∈ pre, ¬hasGPU x) ∧ hasGPU d ∧
      (getBestDevice α t).result = .ok d.id := by
  obtain ⟨pre, d, post, hsplit, hpre, hd⟩ := exists_first hasGPU t.devices hgpu
  refine ⟨pre, d, post, hsplit, hpre, hd, ?_⟩
  rw [getBestDevice_result t hok, hsplit, scan_first_gpu nullptr pre d post hpre hd]

theorem last_cpu_selected (α : Type) (t : Topology) (hok : t.allSucceed)
    (hvalid : t.validHandles) (hnogpu : ∀ d ∈ t.devices, ¬hasGPU d)
    (hcpu : ∃ d ∈ t.devices, hasCPU d) :
    ∃ pre d post, t.devices = pre ++ d :: post ∧ hasCPU d ∧ (∀ x ∈ post, ¬hasCPU x) ∧
      (getBestDevice α t).result = .ok d.id := by
  obtain ⟨pre, d, post, hsplit, hd, hpost⟩ := exists_last hasCPU t.devices hcpu
  refine ⟨pre, d, post, hsplit, hd, hpost, ?_⟩
  have hid : d.id ≠ nullptr := hvalid d (by rw [hsplit]; simp)
  rw [getBestDevice_result t hok, hsplit,
    scan_last_cpu nullptr pre d post (by rw [← hsplit]; exact hnogpu) hd hpost]
  simp [hid]

/-- C1 (first-GPU rule): when every enumeration and type query succeeds and some device
has the GPU bit set, `getBestDevice` returns the handle of the first device with the GPU
bit in platform-then-device scan order: the scan order splits as `pre ++ d :: post` with
no GPU bit anywhere in `pre`, the GPU bit on `d`, and the result is `d`, whatever CPU
devices stand in `pre` or `post`. -/
theorem getBestDevice_first_gpu (α : Type) (t : Topology) (hok : t.allSucceed)
    (hgpu : ∃ d ∈ t.devices, hasGPU d) :
    ∃ pre d post, t.devices = pre ++ d :: post ∧ (∀ x ∈ pre, ¬hasGPU x) ∧ hasGPU d ∧
      (getBestDevice α t).result = .ok d.id :=
  first_gpu_selected α t hok hgpu

theorem getBestDevice_first_gpu_witness :
    mixedTopology.allSucceed ∧ (∃ d ∈ mixedTopology.devices, hasGPU d) ∧
    (∃ pre d post, mixedTopology.devices = pre ++ d :: post ∧ (∀ x ∈ pre, ¬hasGPU x) ∧
      hasGPU d ∧ (getBestDevice Int mixedTopology).result = .ok d.id) ∧
    (getBestDevice Int mixedTopology).result = .ok 22 :=
  ⟨by decide, by decide, getBestDevice_first_gpu Int mixedTopology (by decide) (by decide),
    rfl⟩

/-- C2 (last-CPU rule): when every enumeration and type query succeeds, the handles listed
are valid (not null), no device has the GPU bit and some device has the CPU bit,
`getBestDevice` returns the handle of the last device with the CPU bit in
platform-then-device scan order: the scan order splits as `pre ++ d :: post` with the CPU
bit on `d`, no CPU bit anywhere in `post`, and the result is `d`; a CPU of a later
platform thus overrides one of an earlier platform. -/
theorem getBestDevice_last_cpu (α : Type) (t : Topology) (hok : t.allSucceed)
    (hvalid : t.validHandles) (hnogpu : ∀ d ∈ t.devices, ¬hasGPU d)
    (hcpu : ∃ d ∈ t.devices, hasCPU d) :
    ∃ pre d post, t.devices = pre ++ d :: post ∧ hasCPU d ∧ (∀ x ∈ post, ¬hasCPU x) ∧
      (getBestDevice α t).result = .ok d.id :=
  last_cpu_selected α t hok hvalid hnogpu hcpu

theorem getBestDevice_last_cpu_witness :
    cpuTopology.allSucceed ∧ cpuTopology.validHandles ∧
    (∀ d ∈ cpuTopology.devices, ¬hasGPU d) ∧ (∃ d ∈ cpuTopology.devices, hasCPU d) ∧
    (∃ pre d post, cpuTopology.devices = pre ++ d :: post ∧ hasCPU d ∧
      (∀ x ∈ post, ¬hasCPU x) ∧ (getBestDevice Int cpuTopology).result = .ok d.id) ∧
    (getBestDevice Int cpuTopology).result = .ok 33 :=
  ⟨by decide, by decide, by decide, by decide,
    getBestDevice_last_cpu Int cpuTopology (by decide) (by decide) (by decide) (by decide),
    rfl⟩

/-- C3 (no-suitable-device rule): when every enumeration and type query succeeds and the
handles listed are valid (not null), `getBestDevice` throws the error
"No devices supporting OpenCL were found" if and only if no enumerated device has the GPU
bit or the CPU bit (no platform, platforms without devices, devices of other types only);
otherwise it returns the handle of an enumerated device that has one of the two bits. -/
theorem getBestDevice_no_device_iff (α : Type) (t : Topology) (hok : t.allSucceed)
    (hvalid : t.validHandles) :
    ((getBestDevice α t).result =
        .error (.runtimeError "No devices supporting OpenCL were found") ↔
      ∀ d ∈ t.devices, ¬hasGPU d ∧ ¬hasCPU d) ∧
    ((∃ d ∈ t.devices, hasGPU d ∨ hasCPU d) →
      ∃ d ∈ t.devices, (hasGPU d ∨ hasCPU d) ∧ (getBestDevice α t).result = .ok d.id) := by
  have hsome : (∃ d ∈ t.devices, hasGPU d ∨ hasCPU d) →
      ∃ d ∈ t.devices, (hasGPU d ∨ hasCPU d) ∧ (getBestDevice α t).result = .ok d.id := by
    intro hex
    by_cases hgpu : ∃ d ∈ t.devices, hasGPU d
    · obtain ⟨pre, d, post, hsplit, _, hd, hres⟩ := first_gpu_selected α t hok hgpu
      exact ⟨d, by rw [hsplit]; simp, Or.inl hd, hres⟩
    · have hnogpu : ∀ d ∈ t.devices, ¬hasGPU d := fun d hd hg => hgpu ⟨d, hd, hg⟩
      have hcpu : ∃ d ∈ t.devices, hasCPU d := by
        obtain ⟨d, hd, hgc⟩ := hex
        exact ⟨d, hd, hgc.resolve_left (hnogpu d hd)⟩
      obtain ⟨pre, d, post, hsplit, hd, _, hres⟩ :=
        last_cpu_selected α t hok hvalid hnogpu hcpu
      exact ⟨d, by rw [hsplit]; simp, Or.inr hd, hres⟩
  refine ⟨⟨?_, ?_⟩, hsome⟩
  · intro herr d hd
    by_contra hgc
    have hex : ∃ x ∈ t.devices, hasGPU x ∨ hasCPU x := by
      refine ⟨d, hd, ?_⟩
      by_cases hg : hasGPU d
      · exact Or.inl hg
      · exact Or.inr (by_contra fun hc => hgc ⟨hg, hc⟩)
    obtain ⟨x, _, _, hres⟩ := hsome hex
    rw [herr] at hres
    cases hres
  · intro hnone
    rw [getBestDevice_result t hok, scan_none nullptr t.devices hnone]
    simp [noDevices]

theorem getBestDevice_no_device_iff_witness :
    accelTopology.allSucceed ∧ accelTopology.validHandles ∧
    (getBestDevice Int accelTopology).result =
      .error (.runtimeError "No devices supporting OpenCL were found") :=
  ⟨by decide, by decide,
    (getBestDevice_no_device_iff Int accelTopology (by decide) (by decide)).1.2 (by decide)⟩

/-- C10 (selector error propagation): for every topology, whenever a query that
`getBestDevice` issues (platform enumeration, per-platform device enumeration, device
type, be it the query of `isGPU` or the later one of `isCPU` on the same device, each with
its own status) returns a status other than `CL_SUCCESS`, that query is the last action of
`getBestDevice` (no retry, no further query) and `getBestDevice` throws the external-API
error carrying that status code and the line of the call: it returns no device, not even a
CPU device found before. -/
theorem getBestDevice_query_failure (α : Type) (t : Topology) (pre post : List (Event α))
    (fn : Api) (line : Nat) (status : Int)
    (htrace : (getBestDevice α t).trace = pre ++ Event.call fn line status :: post)
    (hfail : status ≠ CL_SUCCESS) :
    post = [] ∧ (getBestDevice α t).result = .error (.openclError status FILE line) :=
  Checked_getBestDevice CallSound_everyCall t pre post (.call fn line status) status line
    htrace rfl hfail

theorem getBestDevice_query_failure_witness :
    (getBestDevice Int failingTopology).trace =
      [.call .clGetPlatformIDs 58 0, .call .clGetPlatformIDs 60 0, .call .clGetDeviceIDs 66 0,
        .call .clGetDeviceIDs 68 0, .call .clGetDeviceInfo 39 0, .call .clGetDeviceInfo 39 0,
        .call .clGetDeviceInfo 39 0]
      ++ .call .clGetDeviceInfo 39 (-33) :: [] ∧
    (getBestDevice Int failingTopology).result = .error (.openclError (-33) FILE 39) :=
  ⟨rfl, (getBestDevice_query_failure Int failingTopology
    [.call .clGetPlatformIDs 58 0, .call .clGetPlatformIDs 60 0, .call .clGetDeviceIDs 66 0,
      .call .clGetDeviceIDs 68 0, .call .clGetDeviceInfo 39 0, .call .clGetDeviceInfo 39 0,
      .call .clGetDeviceInfo 39 0]
    [] .clGetDeviceInfo 39 (-33) rfl (by decide)).2⟩

/-! ## Claim about the dispatch range -/

theorem global_work_size_eq (n : Nat) (hn : n < 2 ^ 32) :
    global_work_size n = (n + 127) / 128 * 128 := by
  unfold global_work_size workGroupSize
  omega

theorem ceil_div_workGroupSize (n : Nat) : ⌈(n : ℚ) / 128⌉₊ = (n + 127) / 128 := by
  rcases Nat.eq_zero_or_pos n with rfl | hpos
  · simp
  · have hk : (n + 127) / 128 ≠ 0 := by omega
    rw [Nat.ceil_eq_iff hk]
    constructor
    · rw [lt_div_iff₀ (by norm_num)]
      exact_mod_cast (by omega : ((n + 127) / 128 - 1) * 128 < n)
    · rw [div_le_iff₀ (by norm_num)]
      exact_mod_cast (by omega : n ≤ (n + 127) / 128 * 128)

/-- C6 (dispatch range size): for every element count `n` below `2^32`, with group size
128 and 64-bit `size_t`, neither `n + 128` nor `n + 127` wraps around, and the computed
`global_work_size` is `(n + 127) / 128 * 128` in exact arithmetic, which is
`ceil(n / 128) * 128`: a multiple of 128, at least `n` and less than `n + 128`. -/
theorem global_work_size_spec (n : Nat) (hn : n < 2 ^ 32) :
    n + workGroupSize < 2 ^ 64 ∧ n + 127 < 2 ^ 64 ∧
    global_work_size n = (n + 127) / 128 * 128 ∧
    global_work_size n = ⌈(n : ℚ) / 128⌉₊ * 128 ∧
    128 ∣ global_work_size n ∧ n ≤ global_work_size n ∧ global_work_size n < n + 128 := by
  have heq := global_work_size_eq n hn
  refine ⟨by unfold workGroupSize; omega, by omega, heq, ?_, ?_, ?_, ?_⟩
  · rw [heq, ceil_div_workGroupSize]
  · rw [heq]; exact Dvd.intro_left _ rfl
  · rw [heq]; omega
  · rw [heq]; omega

theorem global_work_size_spec_witness :
    100000000 < 2 ^ 32 ∧ global_work_size 100000000 = 100000000 ∧
    128 ∣ global_work_size 100000000 :=
  ⟨by decide, (global_work_size_spec 100000000 (by decide)).2.2.1.trans (by decide),
    (global_work_size_spec 100000000 (by decide)).2.2.2.2.1⟩

/-! ## Claims about the verification pass -/

section Verification

variable {α : Type}

theorem verifyLoop_accepts (A : Arith α) (as bs cs : List α) (i k : Nat)
    (h : ∀ j, i ≤ j → j < i + k → differs A as bs cs j = false) :
    verifyLoop A as bs cs i k = ⟨[], .ok ()⟩ := by
  induction k generalizing i with
  | zero => rfl
  | succ k ih =>
    have hi : differs A as bs cs i = false := h i (Nat.le_refl _) (by omega)
    have hrest := ih (i + 1) fun j h1 h2 => h j (by omega) (by omega)
    unfold differs at hi
    unfold verifyLoop
    simp only [hi, bind_eq, Run.bind, pure_eq, hrest, Bool.false_eq_true, if_false,
      List.append_nil]

theorem verifyLoop_rejects (A : Arith α) (as bs cs : List α) (i k i0 : Nat)
    (hle : i ≤ i0) (hlt : i0 < i + k) (hbad : differs A as bs cs i0 = true)
    (hfirst : ∀ j, i ≤ j → j < i0 → differs A as bs cs j = false) :
    verifyLoop A as bs cs i k = rejection A as bs cs i0 := by
  induction k generalizing i with
  | zero => omega
  | succ k ih =>
    unfold verifyLoop
    rcases Nat.eq_or_lt_of_le hle with rfl | hlt0
    · unfold differs at hbad
      simp only [hbad, bind_eq, Run.bind, emit, raise, rejection, if_true, List.append_nil]
    · have hi : differs A as bs cs i = false := hfirst i (Nat.le_refl _) hlt0
      have hrest := ih (i + 1) hlt0 (by omega) fun j h1 h2 => hfirst j (by omega) h2
      unfold differs at hi
      simp only [hi, bind_eq, Run.bind, pure_eq, hrest, Bool.false_eq_true, if_false,
        List.nil_append]

theorem exists_first_mismatch (A : Arith α) (as bs cs : List α) (n : Nat)
    (h : ∃ i, i < n ∧ differs A as bs cs i = true) :
    ∃ i0, i0 < n ∧ differs A as bs cs i0 = true ∧
      ∀ j, j < i0 → differs A as bs cs j = false := by
  classical
  refine ⟨Nat.find h, (Nat.find_spec h).1, (Nat.find_spec h).2, ?_⟩
  intro j hj
  have hmin := Nat.find_min h hj
  have hjn : j < n := Nat.lt_trans hj (Nat.find_spec h).1
  cases hd : differs A as bs cs j with
  | false => rfl
  | true => exact absurd ⟨hjn, hd⟩ hmin

/-- C4 (verification pass, acceptance): for every length `n` and all sequences `as`,
`bs`, `cs` of length `n`, the verification loop of `main` completes without throwing if
and only if, at every index `i < n`, `cs[i] != as[i] + bs[i]` is false, that is, `cs[i]`
equals `as[i] + bs[i]` exactly (no tolerance). -/
theorem verifyLoop_ok_iff (A : Arith α) (n : Nat) (as bs cs : List α)
    (_has : as.length = n) (_hbs : bs.length = n) (_hcs : cs.length = n) :
    (verifyLoop A as bs cs 0 n).result = .ok () ↔
      ∀ i, i < n → A.ne (cs.getD i A.zero) (A.add (as.getD i A.zero) (bs.getD i A.zero))
        = false := by
  constructor
  · intro hok i hi
    by_contra hne
    have hex : ∃ i, i < n ∧ differs A as bs cs i = true :=
      ⟨i, hi, by simpa [differs] using hne⟩
    obtain ⟨i0, hi0, hbad, hfirst⟩ := exists_first_mismatch A as bs cs n hex
    rw [verifyLoop_rejects A as bs cs 0 n i0 (Nat.zero_le _) (by omega) hbad
      fun j _ hj => hfirst j hj] at hok
    cases hok
  · intro hall
    rw [verifyLoop_accepts A as bs cs 0 n fun j _ hj => hall j (by omega)]

theorem verifyLoop_ok_iff_witness :
    (verifyLoop intArith [1, 2, 3, 4, 5, 6, 7, 8] [8, 7, 6, 5, 4, 3, 2, 1]
      [9, 9, 9, 9, 9, 9, 9, 9] 0 8).result = .ok () :=
  (verifyLoop_ok_iff intArith 8 [1, 2, 3, 4, 5, 6, 7, 8] [8, 7, 6, 5, 4, 3, 2, 1]
    [9, 9, 9, 9, 9, 9, 9, 9] rfl rfl rfl).2 (by decide)

/-- C5 (verification pass, rejection report): for all sequences `as`, `bs`, `cs` of length
`n` with a mismatch at some index, there is a smallest mismatching index `i0`, and the
verification loop writes exactly one line, naming `i0`, `cs[i0]`, `as[i0]` and `bs[i0]`,
and then throws "CPU and GPU results differ!"; nothing after index `i0` is examined: any
other three sequences that agree with `as`, `bs`, `cs` up to index `i0` give the same
line and the same error. -/
theorem verifyLoop_reports_first (A : Arith α) (n : Nat) (as bs cs : List α)
    (_has : as.length = n) (_hbs : bs.length = n) (_hcs : cs.length = n)
    (hex : ∃ i, i < n ∧
      A.ne (cs.getD i A.zero) (A.add (as.getD i A.zero) (bs.getD i A.zero)) = true) :
    ∃ i0, i0 < n ∧
      A.ne (cs.getD i0 A.zero) (A.add (as.getD i0 A.zero) (bs.getD i0 A.zero)) = true ∧
      (∀ j, j < i0 →
        A.ne (cs.getD j A.zero) (A.add (as.getD j A.zero) (bs.getD j A.zero)) = false) ∧
      verifyLoop A as bs cs 0 n =
        ⟨[.print (.mismatch i0 (cs.getD i0 A.zero) (as.getD i0 A.zero) (bs.getD i0 A.zero))],
          .error (.runtimeError "CPU and GPU results differ!")⟩ ∧
      ∀ as1 bs1 cs1 : List α,
        (∀ j, j ≤ i0 → as1.getD j A.zero = as.getD j A.zero ∧
          bs1.getD j A.zero = bs.getD j A.zero ∧ cs1.getD j A.zero = cs.getD j A.zero) →
        verifyLoop A as1 bs1 cs1 0 n = verifyLoop A as bs cs 0 n := by
  obtain ⟨i0, hi0, hbad, hfirst⟩ := exists_first_mismatch A as bs cs n hex
  have hrun := verifyLoop_rejects A as bs cs 0 n i0 (Nat.zero_le _) (by omega) hbad
    fun j _ hj => hfirst j hj
  refine ⟨i0, hi0, hbad, hfirst, hrun, ?_⟩
  intro as1 bs1 cs1 hagree
  have hsame : ∀ j, j ≤ i0 → differs A as1 bs1 cs1 j = differs A as bs cs j := by
    intro j hj
    obtain ⟨h1, h2, h3⟩ := hagree j hj
    simp only [differs, h1, h2, h3]
  obtain ⟨h1, h2, h3⟩ := hagree i0 (Nat.le_refl _)
  rw [hrun, verifyLoop_rejects A as1 bs1 cs1 0 n i0 (Nat.zero_le _) (by omega)
    (by rw [hsame i0 (Nat.le_refl _)]; exact hbad)
    fun j _ hj => by rw [hsame j (Nat.le_of_lt hj)]; exact hfirst j hj]
  simp only [rejection, h1, h2, h3]

theorem verifyLoop_reports_first_witness :
    (∃ i0, i0 < 8 ∧
      verifyLoop intArith [1, 2, 3, 4, 5, 6, 7, 8] [8, 7, 6, 5, 4, 3, 2, 1]
        [9, 9, 9, 7, 9, 9, 0, 9] 0 8 =
      ⟨[.print (.mismatch i0 (List.getD [9, 9, 9, 7, 9, 9, 0, 9] i0 0)
          (List.getD [1, 2, 3, 4, 5, 6, 7, 8] i0 0) (List.getD [8, 7, 6, 5, 4, 3, 2, 1] i0 0))],
        .error (.runtimeError "CPU and GPU results differ!")⟩) ∧
    verifyLoop intArith [1, 2, 3, 4, 5, 6, 7, 8] [8, 7, 6, 5, 4, 3, 2, 1]
        [9, 9, 9, 7, 9, 9, 0, 9] 0 8 =
      ⟨[.print (.mismatch 3 7 4 5)], .error (.runtimeError "CPU and GPU results differ!")⟩ :=
  ⟨(verifyLoop_reports_first intArith 8 [1, 2, 3, 4, 5, 6, 7, 8] [8, 7, 6, 5, 4, 3, 2, 1]
      [9, 9, 9, 7, 9, 9, 0, 9] rfl rfl rfl ⟨6, by decide⟩).elim
        fun i0 h => ⟨i0, h.1, h.2.2.2.1⟩,
    rfl⟩

end Verification

/-! ## The driver: which computations touch the objects -/

section Ledger

variable {α β γ : Type}

theorem acquired_append (t1 t2 : List (Event α)) :
    acquired (t1 ++ t2) = acquired t1 ++ acquired t2 := by
  induction t1 with
  | nil => rfl
  | cons e t1 ih =>
    cases e with
    | create obj line status =>
      by_cases hs : status = CL_SUCCESS <;> simp [acquired, hs, ih]
    | _ => simp [acquired, ih]

theorem released_append (t1 t2 : List (Event α)) :
    released (t1 ++ t2) = released t1 ++ released t2 := by
  induction t1 with
  | nil => rfl
  | cons e t1 ih => cases e <;> simp [released, ih]

theorem acquired_of_quiet (t : List (Event α)) (h : ∀ e ∈ t, e.isTracked = false) :
    acquired t = [] ∧ released t = [] := by
  induction t with
  | nil => exact ⟨rfl, rfl⟩
  | cons e t ih =>
    have he := h e (List.mem_cons_self _ _)
    have ht := ih fun x hx => h x (List.mem_cons_of_mem _ hx)
    cases e <;> simp_all [acquired, released, Event.isTracked]

theorem Quiet_of_trace {m : Run α β} (t : List (Event α)) (h : m.trace = t)
    (ht : ∀ e ∈ t, e.isTracked = false) : Quiet m := by
  intro e he
  rw [h] at he
  exact ht e he

theorem Quiet_pure (b : β) : Quiet (pure b : Run α β) :=
  Quiet_of_trace [] rfl (by simp)

theorem Quiet_raise (e : Exception) : Quiet (raise e : Run α β) :=
  Quiet_of_trace [] rfl (by simp)

theorem Quiet_emit (e : Event α) (h : e.isTracked = false) : Quiet (emit e) :=
  Quiet_of_trace [e] rfl (by simpa using h)

theorem Quiet_apiCall (fn : Api) (line : Nat) (status : Int) :
    Quiet (apiCall fn line status : Run α Int) :=
  Quiet_of_trace [.call fn line status] rfl (by simp [Event.isTracked])

theorem Quiet_safe_call (fn : Api) (line : Nat) (status : Int) :
    Quiet (OCL_SAFE_CALL (apiCall fn line status) line : Run α Unit) :=
  Quiet_of_trace [.call fn line status] (by rw [OCL_SAFE_CALL_apiCall])
    (by simp [Event.isTracked])

theorem Quiet_bind {m : Run α β} {f : β → Run α γ} (hm : Quiet m)
    (hf : ∀ b, Quiet (f b)) : Quiet (m >>= f) := by
  intro e he
  cases hres : m.result with
  | error x =>
    rw [bind_of_error f hres] at he
    exact hm e he
  | ok b =>
    rw [bind_of_ok f hres] at he
    rcases List.mem_append.mp he with h | h
    · exact hm e h
    · exact hf b e h

theorem Quiet_deviceLoop (cpu : Nat) (ds : List Device) : Quiet (deviceLoop α cpu ds) := by
  induction ds generalizing cpu with
  | nil => exact Quiet_pure _
  | cons d ds ih =>
    unfold deviceLoop isGPU isCPU getDevType
    refine Quiet_bind (Quiet_bind (Quiet_bind (Quiet_safe_call _ _ _) fun _ => Quiet_pure _)
      fun _ => Quiet_pure _) fun g => ?_
    cases g with
    | true => exact Quiet_pure _
    | false =>
      refine Quiet_bind (Quiet_bind (Quiet_bind (Quiet_safe_call _ _ _)
        fun _ => Quiet_pure _) fun _ => Quiet_pure _) fun c => ?_
      cases c with
      | true => exact ih _
      | false => exact ih _

theorem Quiet_platformLoop (cpu : Nat) (ps : List Platform) :
    Quiet (platformLoop α cpu ps) := by
  induction ps generalizing cpu with
  | nil => exact Quiet_pure _
  | cons p ps ih =>
    unfold platformLoop
    refine Quiet_bind (Quiet_safe_call _ _ _) fun _ => ?_
    refine Quiet_bind (Quiet_safe_call _ _ _) fun _ => ?_
    refine Quiet_bind (Quiet_deviceLoop cpu p.devices) fun r => ?_
    cases r with
    | returned device => exact Quiet_pure _
    | finished c => exact ih c

theorem Quiet_getBestDevice (t : Topology) : Quiet (getBestDevice α t) := by
  unfold getBestDevice
  refine Quiet_bind (Quiet_safe_call _ _ _) fun _ => ?_
  refine Quiet_bind (Quiet_safe_call _ _ _) fun _ => ?_
  refine Quiet_bind (Quiet_platformLoop nullptr t.platforms) fun r => ?_
  cases r with
  | returned device => exact Quiet_pure _
  | finished c =>
    by_cases hc : c = nullptr
    · simp only [hc, if_true]; exact Quiet_raise _
    · simp only [hc, if_false]; exact Quiet_pure _

theorem Quiet_getDevicePlatformId (w : World α) (device k : Nat) :
    Quiet (getDevicePlatformId w device k) := by
  unfold getDevicePlatformId
  exact Quiet_bind (Quiet_safe_call _ _ _) fun _ => Quiet_pure _

theorem Quiet_printDeviceInfo (w : World α) (device : Nat) :
    Quiet (printDeviceInfo w device) := by
  unfold printDeviceInfo
  refine Quiet_bind (Quiet_getDevicePlatformId w device 0) fun _ => ?_
  refine Quiet_bind (Quiet_safe_call _ _ _) fun _ => ?_
  refine Quiet_bind (Quiet_safe_call _ _ _) fun _ => ?_
  refine Quiet_bind (Quiet_emit _ rfl) fun _ => ?_
  refine Quiet_bind (Quiet_safe_call _ _ _) fun _ => ?_
  refine Quiet_bind (Quiet_safe_call _ _ _) fun _ => ?_
  exact Quiet_emit _ rfl

theorem Quiet_kernelLoop (w : World α) (n i k : Nat) : Quiet (kernelLoop w n i k) := by
  induction k generalizing i with
  | zero => exact Quiet_pure _
  | succ k ih =>
    unfold kernelLoop
    refine Quiet_bind ?_ fun _ => ?_
    · unfold OCL_SAFE_CALL reportError
      refine Quiet_bind (Quiet_of_trace [.dispatch _ _ _ _] rfl (by simp [Event.isTracked]))
        fun e => ?_
      by_cases he : CL_SUCCESS = e
      · simp only [he, if_true]; exact Quiet_pure _
      · simp only [he, if_false]; exact Quiet_raise _
    refine Quiet_bind (Quiet_apiCall _ _ _) fun _ => ?_
    refine Quiet_bind (Quiet_apiCall _ _ _) fun _ => ?_
    refine Quiet_bind (Quiet_emit _ rfl) fun _ => ?_
    exact ih _

theorem Quiet_readLoop (w : World α) (n : Nat) (cs : List α) (i k : Nat) :
    Quiet (readLoop w n cs i k) := by
  induction k generalizing i cs with
  | zero => exact Quiet_pure _
  | succ k ih =>
    unfold readLoop
    refine Quiet_bind (Quiet_safe_call _ _ _) fun _ => ?_
    refine Quiet_bind (Quiet_emit _ rfl) fun _ => ?_
    exact ih _ _

theorem Quiet_verifyLoop (A : Arith α) (as bs cs : List α) (i k : Nat) :
    Quiet (verifyLoop A as bs cs i k) := by
  induction k generalizing i with
  | zero => exact Quiet_pure _
  | succ k ih =>
    unfold verifyLoop
    by_cases hc : A.ne (cs.getD i A.zero) (A.add (as.getD i A.zero) (bs.getD i A.zero)) = true
    · simp only [hc, if_true]
      exact Quiet_bind (Quiet_emit _ rfl) fun _ => Quiet_bind (Quiet_raise _) fun _ => ih _
    · simp only [hc, if_false]
      exact Quiet_bind (Quiet_pure _) fun _ => ih _

theorem OnSuccess_bind {m : Run α β} {f : β → Run α γ} {Q : List (Event α) → γ → Prop}
    (h : OnSuccess m fun t b => OnSuccess (f b) fun t2 c => Q (t ++ t2) c) :
    OnSuccess (m >>= f) Q := by
  intro c hc
  cases hres : m.result with
  | error e =>
    rw [bind_of_error f hres] at hc
    cases hc
  | ok b =>
    rw [bind_of_ok f hres] at hc ⊢
    exact h b hres c hc

theorem OnSuccess_pure {b : β} {Q : List (Event α) → β → Prop} (h : Q [] b) :
    OnSuccess (pure b : Run α β) Q := by
  intro c hc
  cases hc
  exact h

theorem OnSuccess_raise {e : Exception} {Q : List (Event α) → β → Prop} :
    OnSuccess (raise e : Run α β) Q := by
  intro c hc
  cases hc

theorem OnSuccess_emit {e : Event α} {Q : List (Event α) → Unit → Prop} (h : Q [e] ()) :
    OnSuccess (emit e) Q := by
  intro c hc
  exact h

theorem OnSuccess_createCall {obj : Resource} {line : Nat} {status : Int}
    {Q : List (Event α) → Int → Prop} (h : Q [.create obj line status] status) :
    OnSuccess (createCall obj line status) Q := by
  intro c hc
  cases hc
  exact h

theorem OnSuccess_releaseCall {obj : Resource} {line : Nat} {status : Int}
    {Q : List (Event α) → Unit → Prop} (h : Q [.release obj line status] ()) :
    OnSuccess (releaseCall obj line status) Q := by
  intro c hc
  exact h

theorem OnSuccess_check {err : Int} {line : Nat} {Q : List (Event α) → Unit → Prop}
    (h : err = CL_SUCCESS → Q [] ()) :
    OnSuccess (OCL_SAFE_CALL (pure err) line) Q := by
  intro c hc
  by_cases he : CL_SUCCESS = err
  · have : (OCL_SAFE_CALL (pure err) line : Run α Unit) = ⟨[], .ok ()⟩ := by
      simp [OCL_SAFE_CALL, reportError, he, bind_eq, Run.bind, pure_eq]
    rw [this]
    exact h he.symm
  · have : (OCL_SAFE_CALL (pure err) line : Run α Unit).result =
        .error (.openclError err FILE line) := by
      simp [OCL_SAFE_CALL, reportError, he, bind_eq, Run.bind, pure_eq, raise]
    rw [this] at hc
    cases hc

theorem OnSuccess_quiet {m : Run α β} {Q : List (Event α) → β → Prop} (hq : Quiet m)
    (h : ∀ t b, acquired t = [] → released t = [] → Q t b) : OnSuccess m Q := by
  intro b _
  exact h m.trace b (acquired_of_quiet _ hq).1 (acquired_of_quiet _ hq).2

theorem OnSuccess_ite {c : Prop} [Decidable c] {m1 m2 : Run α β}
    {Q : List (Event α) → β → Prop} (h1 : c → OnSuccess m1 Q) (h2 : ¬c → OnSuccess m2 Q) :
    OnSuccess (if c then m1 else m2) Q := by
  by_cases hc : c
  · simp only [hc, if_true]; exact h1 hc
  · simp only [hc, if_false]; exact h2 hc

theorem createDeviceContext_ledger (w : World α) (device : Nat)
    {Q : List (Event α) → Resource → Prop}
    (h : ∀ t b, acquired t = [.ctx] → released t = [] → Q t b) :
    OnSuccess (createDeviceContext w device) Q := by
  unfold createDeviceContext
  refine OnSuccess_bind (OnSuccess_quiet (Quiet_getDevicePlatformId _ _ _) ?_)
  intro t1 _ ha1 hr1
  refine OnSuccess_bind (OnSuccess_createCall ?_)
  refine OnSuccess_bind (OnSuccess_check ?_)
  intro hs
  refine OnSuccess_pure (h _ _ ?_ ?_)
  · simp [acquired_append, acquired, ha1, hs]
  · simp [released_append, released, hr1]

theorem main_ledger (A : Arith α) (n : Nat) (w : World α) :
    OnSuccess (main A n w) fun t _ =>
      acquired t = [.ctx, .queue, .aGpu, .bGpu, .cGpu, .program, .kernel] ∧
      released t = [.program, .queue, .kernel, .aGpu, .bGpu, .cGpu, .ctx] := by
  unfold main
  dsimp only
  refine OnSuccess_ite (fun _ => OnSuccess_bind OnSuccess_raise) fun _ => ?_
  refine OnSuccess_bind (OnSuccess_pure ?_)
  refine OnSuccess_bind (OnSuccess_quiet (Quiet_getBestDevice _) ?_)
  intro t1 device ha1 hr1
  refine OnSuccess_bind (OnSuccess_emit ?_)
  refine OnSuccess_bind (OnSuccess_quiet (Quiet_printDeviceInfo _ _) ?_)
  intro t2 _ ha2 hr2
  refine OnSuccess_bind (createDeviceContext_ledger _ _ ?_)
  intro t3 _ ha3 hr3
  refine OnSuccess_bind (OnSuccess_createCall ?_)
  refine OnSuccess_bind (OnSuccess_check ?_)
  intro hs135
  refine OnSuccess_bind (OnSuccess_emit ?_)
  refine OnSuccess_bind (OnSuccess_createCall ?_)
  refine OnSuccess_bind (OnSuccess_check ?_)
  intro hs150
  refine OnSuccess_bind (OnSuccess_createCall ?_)
  refine OnSuccess_bind (OnSuccess_check ?_)
  intro hs152
  refine OnSuccess_bind (OnSuccess_createCall ?_)
  refine OnSuccess_bind (OnSuccess_check ?_)
  intro hs154
  refine OnSuccess_ite (fun _ => OnSuccess_bind OnSuccess_raise) fun _ => ?_
  refine OnSuccess_bind (OnSuccess_pure ?_)
  refine OnSuccess_bind (OnSuccess_createCall ?_)
  refine OnSuccess_bind (OnSuccess_check ?_)
  intro hs169
  refine OnSuccess_bind (OnSuccess_quiet (Quiet_safe_call _ _ _) ?_)
  intro t4 _ ha4 hr4
  refine OnSuccess_bind (OnSuccess_quiet (Quiet_safe_call _ _ _) ?_)
  intro t5 _ ha5 hr5
  refine OnSuccess_bind (OnSuccess_quiet (Quiet_safe_call _ _ _) ?_)
  intro t6 _ ha6 hr6
  refine OnSuccess_ite
    (fun _ => OnSuccess_bind (OnSuccess_emit (OnSuccess_bind (OnSuccess_emit ?_))))
    (fun _ => OnSuccess_bind (OnSuccess_pure ?_))
  all_goals
    refine OnSuccess_bind (OnSuccess_createCall ?_)
    refine OnSuccess_bind (OnSuccess_check ?_)
    intro hs183
    refine OnSuccess_bind (OnSuccess_quiet (Quiet_safe_call _ _ _) ?_)
    intro t7 _ ha7 hr7
    refine OnSuccess_bind (OnSuccess_quiet (Quiet_safe_call _ _ _) ?_)
    intro t8 _ ha8 hr8
    refine OnSuccess_bind (OnSuccess_quiet (Quiet_safe_call _ _ _) ?_)
    intro t9 _ ha9 hr9
    refine OnSuccess_bind (OnSuccess_quiet (Quiet_safe_call _ _ _) ?_)
    intro t10 _ ha10 hr10
    refine OnSuccess_bind (OnSuccess_quiet (Quiet_kernelLoop _ _ _ _) ?_)
    intro t11 _ ha11 hr11
    refine OnSuccess_bind (OnSuccess_emit ?_)
    refine OnSuccess_bind (OnSuccess_emit ?_)
    refine OnSuccess_bind (OnSuccess_emit ?_)
    refine OnSuccess_bind (OnSuccess_quiet (Quiet_readLoop _ _ _ _ _) ?_)
    intro t12 cs ha12 hr12
    refine OnSuccess_bind (OnSuccess_emit ?_)
    refine OnSuccess_bind (OnSuccess_emit ?_)
    refine OnSuccess_bind (OnSuccess_quiet (Quiet_verifyLoop _ _ _ _ _ _) ?_)
    intro t13 _ ha13 hr13
    refine OnSuccess_bind (OnSuccess_releaseCall ?_)
    refine OnSuccess_bind (OnSuccess_releaseCall ?_)
    refine OnSuccess_bind (OnSuccess_releaseCall ?_)
    refine OnSuccess_bind (OnSuccess_releaseCall ?_)
    refine OnSuccess_bind (OnSuccess_releaseCall ?_)
    refine OnSuccess_bind (OnSuccess_releaseCall ?_)
    refine OnSuccess_bind (OnSuccess_releaseCall ?_)
    refine OnSuccess_pure ?_
    simp [acquired_append, released_append, acquired, released, *]

/-! ## The driver: the build log is written only after a successful build -/

theorem NoLog_of_quiet {m : Run α β} (h : Quiet m) : NoLog m := by
  intro e he
  have ht := h e he
  cases e with
  | print o => cases o <;> simp_all [Event.isTracked, Event.isLog]
  | _ => rfl

theorem NoLog_of_trace {m : Run α β} (t : List (Event α)) (h : m.trace = t)
    (ht : ∀ e ∈ t, e.isLog = false) : NoLog m := by
  intro e he
  rw [h] at he
  exact ht e he

theorem NoLog_bind {m : Run α β} {f : β → Run α γ} (hm : NoLog m)
    (hf : ∀ b, m.result = .ok b → NoLog (f b)) : NoLog (m >>= f) := by
  intro e he
  cases hres : m.result with
  | error x =>
    rw [bind_of_error f hres] at he
    exact hm e he
  | ok b =>
    rw [bind_of_ok f hres] at he
    rcases List.mem_append.mp he with h | h
    · exact hm e h
    · exact hf b hres e h

theorem NoLog_ite {c : Prop} [Decidable c] {m1 m2 : Run α β}
    (h1 : c → NoLog m1) (h2 : ¬c → NoLog m2) : NoLog (if c then m1 else m2) := by
  by_cases hc : c
  · simp only [hc, if_true]; exact h1 hc
  · simp only [hc, if_false]; exact h2 hc

theorem NoLog_createCall (obj : Resource) (line : Nat) (status : Int) :
    NoLog (createCall obj line status : Run α Int) :=
  NoLog_of_trace [.create obj line status] rfl (by simp [Event.isLog])

theorem OCL_SAFE_CALL_pure_trace (err : Int) (line : Nat) :
    (OCL_SAFE_CALL (pure err) line : Run α Unit).trace = [] := by
  by_cases he : CL_SUCCESS = err <;>
    simp [OCL_SAFE_CALL, reportError, he, bind_eq, Run.bind, pure_eq, raise]

theorem NoLog_check (err : Int) (line : Nat) :
    NoLog (OCL_SAFE_CALL (pure err) line : Run α Unit) :=
  NoLog_of_trace [] (OCL_SAFE_CALL_pure_trace err line) (by simp)

theorem NoLog_createDeviceContext (w : World α) (device : Nat) :
    NoLog (createDeviceContext w device) := by
  unfold createDeviceContext
  refine NoLog_bind (NoLog_of_quiet (Quiet_getDevicePlatformId _ _ _)) fun _ _ => ?_
  refine NoLog_bind (NoLog_createCall _ _ _) fun _ _ => ?_
  refine NoLog_bind (NoLog_check _ _) fun _ _ => ?_
  exact NoLog_of_quiet (Quiet_pure _)

/-- In every run in which `clBuildProgram` returns a status other than `CL_SUCCESS`,
`main` never writes the build log. -/
theorem main_build_failure_never_prints_log (A : Arith α) (n : Nat) (w : World α)
    (hfail : w.status 172 0 ≠ CL_SUCCESS) : NoLog (main A n w) := by
  unfold main
  dsimp only
  refine NoLog_ite
    (fun _ => NoLog_bind (NoLog_of_quiet (Quiet_raise _)) fun _ h => by cases h) fun _ => ?_
  refine NoLog_bind (NoLog_of_quiet (Quiet_pure _)) fun _ _ => ?_
  refine NoLog_bind (NoLog_of_quiet (Quiet_getBestDevice _)) fun device _ => ?_
  refine NoLog_bind (NoLog_of_quiet (Quiet_emit _ rfl)) fun _ _ => ?_
  refine NoLog_bind (NoLog_of_quiet (Quiet_printDeviceInfo _ _)) fun _ _ => ?_
  refine NoLog_bind (NoLog_createDeviceContext _ _) fun _ _ => ?_
  refine NoLog_bind (NoLog_createCall _ _ _) fun _ _ => ?_
  refine NoLog_bind (NoLog_check _ _) fun _ _ => ?_
  refine NoLog_bind (NoLog_of_quiet (Quiet_emit _ rfl)) fun _ _ => ?_
  refine NoLog_bind (NoLog_createCall _ _ _) fun _ _ => ?_
  refine NoLog_bind (NoLog_check _ _) fun _ _ => ?_
  refine NoLog_bind (NoLog_createCall _ _ _) fun _ _ => ?_
  refine NoLog_bind (NoLog_check _ _) fun _ _ => ?_
  refine NoLog_bind (NoLog_createCall _ _ _) fun _ _ => ?_
  refine NoLog_bind (NoLog_check _ _) fun _ _ => ?_
  refine NoLog_ite
    (fun _ => NoLog_bind (NoLog_of_quiet (Quiet_raise _)) fun _ h => by cases h) fun _ => ?_
  refine NoLog_bind (NoLog_of_quiet (Quiet_pure _)) fun _ _ => ?_
  refine NoLog_bind (NoLog_createCall _ _ _) fun _ _ => ?_
  refine NoLog_bind (NoLog_check _ _) fun _ _ => ?_
  refine NoLog_bind (NoLog_of_quiet (Quiet_safe_call _ _ _)) fun _ hbuild => ?_
  rw [OCL_SAFE_CALL_apiCall] at hbuild
  have hne : ¬CL_SUCCESS = w.status 172 0 := fun h => hfail h.symm
  simp [hne] at hbuild

/-! ## The driver: the status of `clWaitForEvents` is discarded -/

theorem withWaitStatus_status (w : World α) (s : Nat → Int) (line i : Nat) :
    (w.withWaitStatus s).status line i = if line = 203 then s i else w.status line i := rfl

theorem kernelLoop_result_withWaitStatus (w : World α) (s : Nat → Int) (n i k : Nat) :
    (kernelLoop (w.withWaitStatus s) n i k).result = (kernelLoop w n i k).result := by
  induction k generalizing i with
  | zero => rfl
  | succ k ih =>
    unfold kernelLoop
    simp only [result_bind, withWaitStatus_status, ih]
    simp [apiCall, emit]

theorem readLoop_withWaitStatus (w : World α) (s : Nat → Int) (n : Nat) (cs : List α)
    (i k : Nat) : readLoop (w.withWaitStatus s) n cs i k = readLoop w n cs i k := by
  induction k generalizing i cs with
  | zero => rfl
  | succ k ih =>
    unfold readLoop
    simp only [withWaitStatus_status, ih]
    simp [World.withWaitStatus]

/-- The outcome of `main` does not depend on the statuses `clWaitForEvents` returns. -/
theorem main_result_ignores_wait (A : Arith α) (n : Nat) (w : World α) (s : Nat → Int) :
    (main A n (w.withWaitStatus s)).result = (main A n w).result := by
  unfold main
  simp only [result_bind, withWaitStatus_status, kernelLoop_result_withWaitStatus,
    readLoop_withWaitStatus, apply_ite Run.result]
  simp [World.withWaitStatus, printDeviceInfo, createDeviceContext, getDevicePlatformId]

/-! ## The driver: every check is fatal, and which calls are checked -/

theorem Checked_create {g : Unit → Run α γ} (obj : Resource) (line : Nat) (status : Int)
    (hg : ∀ u, Checked checkedAt (g u)) :
    Checked checkedAt
      (createCall obj line status >>= fun err => OCL_SAFE_CALL (pure err) (line + 1) >>= g) := by
  by_cases hs : CL_SUCCESS = status
  · have hrun : (createCall obj line status >>= fun err =>
        OCL_SAFE_CALL (pure err) (line + 1) >>= g) =
        ⟨.create obj line status :: (g ()).trace, (g ()).result⟩ := by
      simp [createCall, OCL_SAFE_CALL, reportError, hs, bind_eq, Run.bind, pure_eq]
    rw [hrun]
    intro pre post e s l htrace he hne
    cases pre with
    | nil =>
      simp only [List.nil_append, List.cons.injEq] at htrace
      rw [← htrace.1] at he
      simp only [checkedAt, Option.some.injEq, Prod.mk.injEq] at he
      exact absurd (he.1 ▸ hs.symm) hne
    | cons x pre =>
      simp only [List.cons_append, List.cons.injEq] at htrace
      exact hg () pre post e s l htrace.2 he hne
  · have hrun : (createCall obj line status >>= fun err =>
        OCL_SAFE_CALL (pure err) (line + 1) >>= g) =
        ⟨[.create obj line status], .error (.openclError status FILE (line + 1))⟩ := by
      simp [createCall, OCL_SAFE_CALL, reportError, hs, bind_eq, Run.bind, pure_eq, raise]
    rw [hrun]
    intro pre post e s l htrace he hne
    cases pre with
    | nil =>
      simp only [List.nil_append, List.cons.injEq] at htrace
      rw [← htrace.1] at he
      simp only [checkedAt, Option.some.injEq, Prod.mk.injEq] at he
      obtain ⟨rfl, rfl⟩ := he
      exact ⟨htrace.2.symm, rfl⟩
    | cons x pre => simp at htrace

theorem Checked_enqueue (gws wgs line : Nat) (status : Int) :
    Checked checkedAt (OCL_SAFE_CALL (enqueueCall gws wgs line status) line : Run α Unit) := by
  have hrun : (OCL_SAFE_CALL (enqueueCall gws wgs line status) line : Run α Unit) =
      ⟨[.dispatch gws wgs line status],
        if CL_SUCCESS = status then .ok () else .error (.openclError status FILE line)⟩ := by
    unfold OCL_SAFE_CALL enqueueCall reportError
    by_cases h : CL_SUCCESS = status <;> simp [bind_eq, Run.bind, h, pure_eq, raise]
  rw [hrun]
  intro pre post e s l htrace he hne
  cases pre with
  | nil =>
    simp only [List.nil_append, List.cons.injEq] at htrace
    rw [← htrace.1] at he
    simp only [checkedAt, Option.some.injEq, Prod.mk.injEq] at he
    obtain ⟨rfl, rfl⟩ := he
    have : ¬CL_SUCCESS = status := fun h => hne h.symm
    exact ⟨htrace.2.symm, by simp [this]⟩
  | cons x pre => simp at htrace

theorem Checked_emit (o : Output α) : Checked checkedAt (emit (.print o)) :=
  Checked_of_unchecked (.print o) rfl rfl

theorem Checked_nextLap : Checked checkedAt (emit (.nextLap : Event α)) :=
  Checked_of_unchecked .nextLap rfl rfl

theorem Checked_releaseCall (obj : Resource) (line : Nat) (status : Int) :
    Checked checkedAt (releaseCall obj line status : Run α Unit) :=
  Checked_of_unchecked (.release obj line status) rfl rfl

theorem Checked_getDevicePlatformId (w : World α) (device k : Nat) :
    Checked checkedAt (getDevicePlatformId w device k) := by
  unfold getDevicePlatformId
  exact Checked_bind (Checked_safe_call CallSound_checkedAt _ _ _) fun _ => Checked_pure _ _

theorem Checked_printDeviceInfo (w : World α) (device : Nat) :
    Checked checkedAt (printDeviceInfo w device) := by
  unfold printDeviceInfo
  refine Checked_bind (Checked_getDevicePlatformId w device _) fun _ => ?_
  refine Checked_bind (Checked_safe_call CallSound_checkedAt _ _ _) fun _ => ?_
  refine Checked_bind (Checked_safe_call CallSound_checkedAt _ _ _) fun _ => ?_
  refine Checked_bind (Checked_emit _) fun _ => ?_
  refine Checked_bind (Checked_safe_call CallSound_checkedAt _ _ _) fun _ => ?_
  refine Checked_bind (Checked_safe_call CallSound_checkedAt _ _ _) fun _ => ?_
  exact Checked_emit _

theorem Checked_createDeviceContext (w : World α) (device : Nat) :
    Checked checkedAt (createDeviceContext w device) := by
  unfold createDeviceContext
  refine Checked_bind (Checked_getDevicePlatformId w device _) fun _ => ?_
  exact Checked_create .ctx 116 _ fun _ => Checked_pure _ _

theorem Checked_kernelLoop (w : World α) (n i k : Nat) :
    Checked checkedAt (kernelLoop w n i k) := by
  induction k generalizing i with
  | zero => exact Checked_pure _ _
  | succ k ih =>
    unfold kernelLoop
    refine Checked_bind (Checked_enqueue _ _ _ _) fun _ => ?_
    refine Checked_bind (Checked_of_unchecked (.call .clWaitForEvents 203 _) rfl rfl)
      fun _ => ?_
    refine Checked_bind (Checked_of_unchecked (.call .clReleaseEvent 204 _) rfl rfl)
      fun _ => ?_
    exact Checked_bind Checked_nextLap fun _ => ih _

theorem Checked_readLoop (w : World α) (n : Nat) (cs : List α) (i k : Nat) :
    Checked checkedAt (readLoop w n cs i k) := by
  induction k generalizing i cs with
  | zero => exact Checked_pure _ _
  | succ k ih =>
    unfold readLoop
    refine Checked_bind (Checked_safe_call CallSound_checkedAt _ _ _) fun _ => ?_
    exact Checked_bind Checked_nextLap fun _ => ih _ _

theorem Checked_verifyLoop (A : Arith α) (as bs cs : List α) (i k : Nat) :
    Checked checkedAt (verifyLoop A as bs cs i k) := by
  induction k generalizing i with
  | zero => exact Checked_pure _ _
  | succ k ih =>
    unfold verifyLoop
    dsimp only
    exact Checked_ite
      (Checked_bind (Checked_emit _) fun _ => Checked_bind (Checked_raise _ _) fun _ => ih _)
      (Checked_bind (Checked_pure _ _) fun _ => ih _)

/-- In every run of `main`, a failing call is fatal at its check, for every call that
`checkedAt` counts as checked: all but `clWaitForEvents`, `clReleaseEvent` and the final
releases. -/
theorem Checked_main (A : Arith α) (n : Nat) (w : World α) :
    Checked checkedAt (main A n w) := by
  unfold main
  dsimp only
  refine Checked_ite (Checked_bind (Checked_raise _ _) fun _ => ?_)
    (Checked_bind (Checked_pure _ _) fun _ => ?_)
  all_goals
    refine Checked_bind (Checked_getBestDevice CallSound_checkedAt _) fun device => ?_
    refine Checked_bind (Checked_emit _) fun _ => ?_
    refine Checked_bind (Checked_printDeviceInfo _ _) fun _ => ?_
    refine Checked_bind (Checked_createDeviceContext _ _) fun _ => ?_
    refine Checked_create .queue 135 _ fun _ => ?_
    refine Checked_bind (Checked_emit _) fun _ => ?_
    refine Checked_create .aGpu 150 _ fun _ => ?_
    refine Checked_create .bGpu 152 _ fun _ => ?_
    refine Checked_create .cGpu 154 _ fun _ => ?_
    refine Checked_ite (Checked_bind (Checked_raise _ _) fun _ => ?_)
      (Checked_bind (Checked_pure _ _) fun _ => ?_)
  all_goals
    refine Checked_create .program 169 _ fun _ => ?_
    refine Checked_bind (Checked_safe_call CallSound_checkedAt _ _ _) fun _ => ?_
    refine Checked_bind (Checked_safe_call CallSound_checkedAt _ _ _) fun _ => ?_
    refine Checked_bind (Checked_safe_call CallSound_checkedAt _ _ _) fun _ => ?_
    refine Checked_ite
      (Checked_bind (Checked_emit _) fun _ => Checked_bind (Checked_emit _) fun _ => ?_)
      (Checked_bind (Checked_pure _ _) fun _ => ?_)
  all_goals
    refine Checked_create .kernel 183 _ fun _ => ?_
    refine Checked_bind (Checked_safe_call CallSound_checkedAt _ _ _) fun _ => ?_
    refine Checked_bind (Checked_safe_call CallSound_checkedAt _ _ _) fun _ => ?_
    refine Checked_bind (Checked_safe_call CallSound_checkedAt _ _ _) fun _ => ?_
    refine Checked_bind (Checked_safe_call CallSound_checkedAt _ _ _) fun _ => ?_
    refine Checked_bind (Checked_kernelLoop _ _ _ _) fun _ => ?_
    refine Checked_bind (Checked_emit _) fun _ => ?_
    refine Checked_bind (Checked_emit _) fun _ => ?_
    refine Checked_bind (Checked_emit _) fun _ => ?_
    refine Checked_bind (Checked_readLoop _ _ _ _ _) fun cs => ?_
    refine Checked_bind (Checked_emit _) fun _ => ?_
    refine Checked_bind (Checked_emit _) fun _ => ?_
    refine Checked_bind (Checked_verifyLoop _ _ _ _ _ _) fun _ => ?_
    refine Checked_bind (Checked_releaseCall _ _ _) fun _ => ?_
    refine Checked_bind (Checked_releaseCall _ _ _) fun _ => ?_
    refine Checked_bind (Checked_releaseCall _ _ _) fun _ => ?_
    refine Checked_bind (Checked_releaseCall _ _ _) fun _ => ?_
    refine Checked_bind (Checked_releaseCall _ _ _) fun _ => ?_
    refine Checked_bind (Checked_releaseCall _ _ _) fun _ => ?_
    refine Checked_bind (Checked_releaseCall _ _ _) fun _ => ?_
    exact Checked_pure _ _

end Ledger

/-! ## Claims about the driver -/

/-- C7 (release order), as stated, fails: in a run of `main` that completes, the order
in which the objects are released is not the reverse of the order in which they were
acquired. -/
theorem main_release_not_reverse :
    (main intArith 8 goodWorld).result = .ok 0 ∧
    released (main intArith 8 goodWorld).trace ≠
      (acquired (main intArith 8 goodWorld).trace).reverse :=
  ⟨rfl, by decide⟩

/-- C7 (release order), amended: whenever `main` completes, the objects were acquired in
the order context, command queue, buffer A, buffer B, buffer C, program, kernel, and each
of them is released exactly once, in the order program, command queue, kernel, buffer A,
buffer B, buffer C, context. -/
theorem main_release_order {α : Type} (A : Arith α) (n : Nat) (w : World α) (r : Int)
    (h : (main A n w).result = .ok r) :
    acquired (main A n w).trace = [.ctx, .queue, .aGpu, .bGpu, .cGpu, .program, .kernel] ∧
    released (main A n w).trace = [.program, .queue, .kernel, .aGpu, .bGpu, .cGpu, .ctx] :=
  main_ledger A n w r h

theorem main_release_order_witness :
    (main intArith 8 goodWorld).result = .ok 0 ∧
    acquired (main intArith 8 goodWorld).trace =
      [.ctx, .queue, .aGpu, .bGpu, .cGpu, .program, .kernel] ∧
    released (main intArith 8 goodWorld).trace =
      [.program, .queue, .kernel, .aGpu, .bGpu, .cGpu, .ctx] :=
  ⟨rfl, main_release_order intArith 8 goodWorld 0 rfl⟩

/-- C8 (build-failure diagnostics) fails on the code: in the run `buildFailWorld`, where
`clBuildProgram` returns `-11` and the device holds a non-empty build log, the failed
build call is the last action of `main`, which throws the external-API error of line 172;
the console has received the device description and "Data generated", and no build log. -/
theorem main_build_failure_hides_log :
    main intArith 8 buildFailWorld =
      ⟨[.call .clGetPlatformIDs 58 0, .call .clGetPlatformIDs 60 0,
        .call .clGetDeviceIDs 66 0, .call .clGetDeviceIDs 68 0,
        .call .clGetDeviceInfo 39 0, .call .clGetDeviceInfo 39 0,
        .call .clGetDeviceInfo 39 0, .call .clGetDeviceInfo 39 0,
        .call .clGetDeviceIDs 66 0, .call .clGetDeviceIDs 68 0,
        .call .clGetDeviceInfo 39 0, .call .clGetDeviceInfo 39 0,
        .call .clGetDeviceInfo 39 0,
        .print (.text "Using device:"),
        .call .clGetDeviceInfo 90 0,
        .call .clGetPlatformInfo 98 0, .call .clGetPlatformInfo 100 0,
        .print (.platformName "Platform"),
        .call .clGetDeviceInfo 104 0, .call .clGetDeviceInfo 106 0,
        .print (.deviceName "Device"),
        .call .clGetDeviceInfo 90 0, .create .ctx 116 0,
        .create .queue 135 0,
        .print (.dataGenerated 8),
        .create .aGpu 150 0, .create .bGpu 152 0, .create .cGpu 154 0,
        .create .program 169 0,
        .call .clBuildProgram 172 (-11)],
      .error (.openclError (-11) FILE 172)⟩ ∧
    1 < buildFailWorld.log_size ∧ buildFailWorld.log ≠ "" :=
  ⟨rfl, by decide, by decide⟩

/-- C9 (fatal on any error) fails on the code for the wait: in the run `waitFailWorld`,
where the first `clWaitForEvents` returns `-14`, `main` does not abort: the failed wait is
followed by the release of the event, the lap of the timer and the next dispatch, all 20
dispatches and all 40 laps are performed, and `main` returns 0. -/
theorem main_ignores_wait_failure :
    (main intArith 8 waitFailWorld).result = .ok 0 ∧
    [.call .clWaitForEvents 203 (-14), .call .clReleaseEvent 204 0, .nextLap,
      .dispatch 128 128 202 0] <:+: (main intArith 8 waitFailWorld).trace ∧
    (main intArith 8 waitFailWorld).trace.count .nextLap = 40 ∧
    (main intArith 8 waitFailWorld).trace.count (.dispatch 128 128 202 0) = 20 :=
  ⟨rfl, by decide, by decide, by decide⟩

end AplusB
